import Mathlib

/-!
Shallow embedding of the temperature conversion engine of the
iot-temperature-conversion-api repository
(`src/services/temperatureConversion.ts`, types in
`src/types/temperature.ts`).

Modelling conventions:
* JavaScript numbers are modelled in exact rational arithmetic (`ℚ`),
  with the non-finite values NaN / +Infinity / -Infinity represented
  explicitly by the `JSNumber` type so that the `isFinite` validation
  step is faithful.
* The runtime values of the TypeScript string enum `TemperatureUnit`
  are plain strings at runtime, and the service validates membership
  with `Object.values(TemperatureUnit).includes(...)`; units are
  therefore modelled as `String`, with the list of recognised values
  mirroring the enum declaration order.
* Thrown exceptions are modelled with `Except`: `ConversionError`
  instances thrown by validation keep their `code` / `field` / `value`
  payload; the plain `Error` thrown by the `default` branches of
  `convertToKelvin` / `convertFromKelvin` is a separate constructor.
* `Math.round x` is `⌊x + 1/2⌋`, which is Mathlib's `round`.
  `parseFloat(value.toPrecision(15))` is modelled as exact decimal
  rounding to 15 significant digits (ties rounded away from zero on
  the absolute value, matching ECMAScript's larger-`n` tie rule).
* Wall-clock fields (`timestamp`, `processingTimeMs`) are elided from
  the response records: they are nondeterministic and no claim
  concerns them.
-/

namespace IoTTemp

/-- A JavaScript number: either a finite value (modelled exactly as a
rational) or one of the non-finite values rejected by `isFinite`. -/
inductive JSNumber where
  | finiteNum (q : ℚ)
  | nanNum
  | posInfNum
  | negInfNum
deriving DecidableEq

/-- Model of JavaScript's `isFinite`. -/
def JSNumber.isFinite : JSNumber → Bool
  | JSNumber.finiteNum _ => true
  | _ => false

namespace TemperatureUnit

/-- Runtime value of `TemperatureUnit.CELSIUS`. -/
def CELSIUS : String := "celsius"

/-- Runtime value of `TemperatureUnit.FAHRENHEIT`. -/
def FAHRENHEIT : String := "fahrenheit"

/-- Runtime value of `TemperatureUnit.KELVIN`. -/
def KELVIN : String := "kelvin"

/-- `Object.values(TemperatureUnit)`, in enum declaration order. -/
def values : List String := [CELSIUS, FAHRENHEIT, KELVIN]

end TemperatureUnit

/-- The `TemperaturePrecisionContext` string enum (closed set, so an
inductive type is faithful; no code path constructs an out-of-range
precision). -/
inductive TemperaturePrecisionContext where
  | CONSUMER
  | INDUSTRIAL
  | MEDICAL
  | SCIENTIFIC
deriving DecidableEq

/-- `TemperatureValue` from `src/types/temperature.ts`. -/
structure TemperatureValue where
  value : JSNumber
  unit : String
  precision : Option TemperaturePrecisionContext := none
deriving DecidableEq

/-- `ConversionRequest` from `src/types/temperature.ts`. -/
structure ConversionRequest where
  temperature : TemperatureValue
  targetUnit : String
  precision : Option TemperaturePrecisionContext := none
deriving DecidableEq

/-- `ConversionResponse` from `src/types/temperature.ts`
(the nondeterministic `timestamp` field is elided). -/
structure ConversionResponse where
  original : TemperatureValue
  converted : TemperatureValue
  precision : TemperaturePrecisionContext
  conversionMethod : String
deriving DecidableEq

/-- `BatchConversionRequest` from `src/types/temperature.ts`. -/
structure BatchConversionRequest where
  temperatures : List TemperatureValue
  targetUnit : String
  precision : Option TemperaturePrecisionContext := none
deriving DecidableEq

/-- `BatchConversionResponse` from `src/types/temperature.ts`
(the wall-clock fields `processingTimeMs` and `timestamp` are elided). -/
structure BatchConversionResponse where
  conversions : List ConversionResponse
  totalCount : ℕ
deriving DecidableEq

/-- Payload of the `value` field of a thrown `ConversionError`
(the offending number or the offending unit string). -/
inductive ErrValue where
  | num (n : JSNumber)
  | str (s : String)
deriving DecidableEq

/-- The `ConversionError` class declared at the bottom of
`src/services/temperatureConversion.ts`: message plus structured
details `code`, optional `field`, optional `value`. -/
structure ConversionError where
  message : String
  code : String
  field : Option String := none
  value : Option ErrValue := none
deriving DecidableEq

/-- A failure escaping the service: either a structured
`ConversionError` or the plain `Error` thrown by the unreachable
`default` branches of the unit-formula switches. -/
inductive ConvFailure where
  | convErr (e : ConversionError)
  | genericErr (message : String)
deriving DecidableEq

/-! ### Rounding primitives

`Math.round(x)` in JavaScript is `⌊x + 1/2⌋`, exactly Mathlib's
`round`.  `Number.prototype.toPrecision(15)` rounds to 15 significant
decimal digits; its exact-arithmetic model needs the decimal exponent
(floor of log₁₀) of the value, computed here by fuel-bounded repeated
division/multiplication by 10 so that the definition reduces inside
the kernel. -/

/-- For `1 ≤ x`, `expUp fuel x` is `⌊log₁₀ x⌋` provided
`fuel ≥ ⌊log₁₀ x⌋`. -/
def expUp : ℕ → ℚ → ℕ
  | 0, _ => 0
  | fuel + 1, x => if 10 ≤ x then expUp fuel (x / 10) + 1 else 0

/-- For `0 < x < 1`, `expDown fuel x` counts the multiplications by 10
needed to reach `[1, ∞)`, i.e. `-⌊log₁₀ x⌋`, provided the fuel is
sufficient. -/
def expDown : ℕ → ℚ → ℕ
  | 0, _ => 0
  | fuel + 1, x => if x < 1 then expDown fuel (x * 10) + 1 else 0

/-- Fuel for the decimal-exponent search.  A finite IEEE-754 double has
decimal exponent in `[-324, 308]`, so 400 steps suffice for every value
a JavaScript number can take. -/
def expFuel : ℕ := 400

/-- Decimal exponent `⌊log₁₀ x⌋` of a positive rational `x` (exact for
every magnitude a finite double can have). -/
def decExp (x : ℚ) : ℤ :=
  if 1 ≤ x then (expUp expFuel x : ℤ) else -(expDown expFuel x : ℤ)

/-- Rounding of a positive rational to 15 significant decimal digits:
scale so that 15 digits sit left of the decimal point, round to the
nearest integer, scale back. -/
def toPrecision15pos (value : ℚ) : ℚ :=
  (round (value * (10 : ℚ) ^ (-(decExp value - 14))) : ℚ) *
    (10 : ℚ) ^ (decExp value - 14)

/-- Exact-arithmetic model of `parseFloat(value.toPrecision(15))`:
round to 15 significant decimal digits, ties away from zero (ECMAScript
applies the rounding to the absolute value and prefixes the sign). -/
def toPrecision15 (value : ℚ) : ℚ :=
  if value = 0 then 0
  else if value < 0 then -toPrecision15pos (-value)
  else toPrecision15pos value

namespace TemperatureConversionService

/-- `private static readonly ABSOLUTE_ZERO_KELVIN = 0`. -/
def ABSOLUTE_ZERO_KELVIN : ℚ := 0

/-- `private static readonly ABSOLUTE_ZERO_CELSIUS = -273.15`. -/
def ABSOLUTE_ZERO_CELSIUS : ℚ := -273.15

/-- `private static readonly ABSOLUTE_ZERO_FAHRENHEIT = -459.67`. -/
def ABSOLUTE_ZERO_FAHRENHEIT : ℚ := -459.67

/-- `convertToKelvin`: switch over the source unit; the `default`
branch throws a plain `Error`. -/
def convertToKelvin (value : ℚ) (fromUnit : String) : Except ConvFailure ℚ :=
  if fromUnit = TemperatureUnit.KELVIN then Except.ok value
  else if fromUnit = TemperatureUnit.CELSIUS then Except.ok (value + 273.15)
  else if fromUnit = TemperatureUnit.FAHRENHEIT then
    Except.ok ((value + 459.67) * (5 / 9))
  else Except.error (ConvFailure.genericErr
    ("Unsupported temperature unit: " ++ fromUnit))

/-- `convertFromKelvin`: switch over the target unit; the `default`
branch throws a plain `Error`. -/
def convertFromKelvin (kelvinValue : ℚ) (toUnit : String) : Except ConvFailure ℚ :=
  if toUnit = TemperatureUnit.KELVIN then Except.ok kelvinValue
  else if toUnit = TemperatureUnit.CELSIUS then Except.ok (kelvinValue - 273.15)
  else if toUnit = TemperatureUnit.FAHRENHEIT then
    Except.ok ((kelvinValue * (9 / 5)) - 459.67)
  else Except.error (ConvFailure.genericErr
    ("Unsupported temperature unit: " ++ toUnit))

/-- `performConversion`: identical units short-circuit, otherwise the
value is routed through Kelvin. -/
def performConversion (value : ℚ) (fromUnit toUnit : String) :
    Except ConvFailure ℚ :=
  if fromUnit = toUnit then Except.ok value
  else
    match convertToKelvin value fromUnit with
    | Except.error e => Except.error e
    | Except.ok kelvinValue => convertFromKelvin kelvinValue toUnit

/-- `applyPrecision`: rounding rule selected by the precision context
(switch order as in the source: CONSUMER, MEDICAL, INDUSTRIAL,
SCIENTIFIC). -/
def applyPrecision (value : ℚ) :
    TemperaturePrecisionContext → ℚ
  | TemperaturePrecisionContext.CONSUMER => (round (value * 100) : ℚ) / 100
  | TemperaturePrecisionContext.MEDICAL => (round (value * 1000) : ℚ) / 1000
  | TemperaturePrecisionContext.INDUSTRIAL => (round (value * 10000) : ℚ) / 10000
  | TemperaturePrecisionContext.SCIENTIFIC => toPrecision15 value

/-- `getAbsoluteZeroInfo`: per-unit absolute-zero constant and display
name; `null` for unrecognised units. -/
def getAbsoluteZeroInfo (unit : String) : Option (ℚ × String) :=
  if unit = TemperatureUnit.KELVIN then some (ABSOLUTE_ZERO_KELVIN, "Kelvin")
  else if unit = TemperatureUnit.CELSIUS then
    some (ABSOLUTE_ZERO_CELSIUS, "Celsius")
  else if unit = TemperatureUnit.FAHRENHEIT then
    some (ABSOLUTE_ZERO_FAHRENHEIT, "Fahrenheit")
  else none

/-- `validateAbsoluteZero`: throws `BELOW_ABSOLUTE_ZERO` when the value
is strictly below the unit's own absolute-zero constant (the source
interpolates the constant into the message; the numeral rendering is
elided here, the unit name is kept). -/
def validateAbsoluteZero (value : ℚ) (unit : String) : Except ConvFailure Unit :=
  match getAbsoluteZeroInfo unit with
  | none => Except.ok ()
  | some absoluteZeroInfo =>
    if value < absoluteZeroInfo.1 then
      Except.error (ConvFailure.convErr
        { message := "Temperature cannot be below absolute zero (" ++
            absoluteZeroInfo.2 ++ ")"
          code := "BELOW_ABSOLUTE_ZERO"
          field := some "temperature.value"
          value := some (ErrValue.num (JSNumber.finiteNum value)) })
    else Except.ok ()

/-- `validateTemperature`: finite-number check, then unit membership
check, then absolute-zero check, in that order (fail fast). -/
def validateTemperature (temperature : TemperatureValue) :
    Except ConvFailure Unit :=
  if !temperature.value.isFinite then
    Except.error (ConvFailure.convErr
      { message := "Temperature value must be a valid finite number"
        code := "INVALID_TEMPERATURE_VALUE"
        field := some "temperature.value"
        value := some (ErrValue.num temperature.value) })
  else if !(TemperatureUnit.values.contains temperature.unit) then
    Except.error (ConvFailure.convErr
      { message := "Invalid temperature unit: " ++ temperature.unit
        code := "INVALID_TEMPERATURE_UNIT"
        field := some "temperature.unit"
        value := some (ErrValue.str temperature.unit) })
  else
    match temperature.value with
    | JSNumber.finiteNum q => validateAbsoluteZero q temperature.unit
    | _ => Except.ok ()

/-- `convert`: validate, convert, select the effective precision
(request precision, defaulting to SCIENTIFIC), round once, assemble
the response.  The value is finite whenever the final branch runs,
because `validateTemperature` rejects non-finite values; the dead
branch re-raises the same invalid-value error to stay total. -/
def convert (request : ConversionRequest) :
    Except ConvFailure ConversionResponse :=
  match validateTemperature request.temperature with
  | Except.error e => Except.error e
  | Except.ok _ =>
    match request.temperature.value with
    | JSNumber.finiteNum v =>
      match performConversion v request.temperature.unit request.targetUnit with
      | Except.error e => Except.error e
      | Except.ok convertedValue =>
        let precision :=
          request.precision.getD TemperaturePrecisionContext.SCIENTIFIC
        let roundedValue := applyPrecision convertedValue precision
        Except.ok
          { original := request.temperature
            converted :=
              { value := JSNumber.finiteNum roundedValue
                unit := request.targetUnit
                precision := some precision }
            precision := precision
            conversionMethod := "NIST-" ++ request.temperature.unit ++
              "-to-" ++ request.targetUnit }
    | nonFinite =>
      Except.error (ConvFailure.convErr
        { message := "Temperature value must be a valid finite number"
          code := "INVALID_TEMPERATURE_VALUE"
          field := some "temperature.value"
          value := some (ErrValue.num nonFinite) })

/-- `batchConvert`: map `convert` over the items in order, sharing the
batch's target unit and precision (the source spreads `precision` only
when present; enum strings are truthy, so the per-item request's
precision is exactly the batch's optional precision).  A thrown
exception from any item propagates, so the result is all-or-nothing. -/
def batchConvert (request : BatchConversionRequest) :
    Except ConvFailure BatchConversionResponse :=
  match request.temperatures.mapM (fun temperature =>
      convert
        { temperature := temperature
          targetUnit := request.targetUnit
          precision := request.precision }) with
  | Except.error e => Except.error e
  | Except.ok conversions =>
    Except.ok { conversions := conversions, totalCount := conversions.length }

end TemperatureConversionService

/-! ### Observation helpers for the claim statements -/

open TemperatureConversionService

/-- The converted numeric value produced by a successful `convert`,
if any. -/
def convertedValueQ (request : ConversionRequest) : Option ℚ :=
  match convert request with
  | Except.ok r =>
    match r.converted.value with
    | JSNumber.finiteNum q => some q
    | _ => none
  | Except.error _ => none

/-- The `code` of a structured `ConversionError`, `none` for a plain
`Error`. -/
def failureCode : ConvFailure → Option String
  | ConvFailure.convErr e => some e.code
  | ConvFailure.genericErr _ => none

/-- The error code with which `convert` fails, if it fails with a
structured `ConversionError`. -/
def convertErrorCode (request : ConversionRequest) : Option String :=
  match convert request with
  | Except.error e => failureCode e
  | Except.ok _ => none

/-- Rounding to `1/n` steps: the common shape of the CONSUMER, MEDICAL
and INDUSTRIAL branches of `applyPrecision` (`Math.round(value * n) / n`). -/
def roundTo (n : ℕ) (x : ℚ) : ℚ := (round (x * n) : ℚ) / n

/-- The decimal scale of the fixed-decimal precision contexts
(`none` for SCIENTIFIC, which rounds to significant digits instead). -/
def decimalScale : TemperaturePrecisionContext → Option ℕ
  | TemperaturePrecisionContext.CONSUMER => some 100
  | TemperaturePrecisionContext.MEDICAL => some 1000
  | TemperaturePrecisionContext.INDUSTRIAL => some 10000
  | TemperaturePrecisionContext.SCIENTIFIC => none

/-- The engine-level round trip of the spec's §8: convert `v` from `u`
to `w`, round, convert the result back from `w` to `u`, round again —
exactly the conversion-and-rounding pipeline `convert` applies on each
leg. -/
def roundTripRounded (p : TemperaturePrecisionContext) (u w : String)
    (v : ℚ) : Except ConvFailure ℚ :=
  (TemperatureConversionService.performConversion v u w).bind (fun r =>
    (TemperatureConversionService.performConversion
        (TemperatureConversionService.applyPrecision r p) w u).map
      (fun r2 => TemperatureConversionService.applyPrecision r2 p))

/-! ### Numeric evaluation lemmas -/

/-- `expUp` computes the decimal exponent of `x ≥ 1` when given enough
fuel. -/
lemma expUp_eval (fuel : ℕ) (x : ℚ) (e : ℕ) (h1 : (10 : ℚ) ^ e ≤ x)
    (h2 : x < (10 : ℚ) ^ (e + 1)) (hf : e ≤ fuel) : expUp fuel x = e := by
  induction fuel generalizing x e with
  | zero =>
    interval_cases e
    rfl
  | succ fuel ih =>
    cases e with
    | zero =>
      unfold expUp
      rw [if_neg]
      simpa using h2
    | succ e =>
      have hcond : (10 : ℚ) ≤ x := by
        calc (10 : ℚ) = 10 ^ 1 := by norm_num
        _ ≤ 10 ^ (e + 1) := by
            apply pow_le_pow_right₀ (by norm_num)
            omega
        _ ≤ x := h1
      unfold expUp
      rw [if_pos hcond, ih (x / 10) e]
      · rw [le_div_iff₀ (by norm_num)]
        calc (10 : ℚ) ^ e * 10 = 10 ^ (e + 1) := by ring
        _ ≤ x := h1
      · rw [div_lt_iff₀ (by norm_num)]
        calc x < 10 ^ (e + 1 + 1) := h2
        _ = 10 ^ (e + 1) * 10 := by ring
      · omega

/-- `expDown` computes the negated decimal exponent of `0 < x < 1`
when given enough fuel. -/
lemma expDown_eval (fuel : ℕ) (x : ℚ) (m : ℕ) (h1 : (10 : ℚ) ^ (-(m : ℤ)) ≤ x)
    (h2 : x < (10 : ℚ) ^ (1 - (m : ℤ))) (hf : m ≤ fuel) : expDown fuel x = m := by
  induction fuel generalizing x m with
  | zero =>
    interval_cases m
    rfl
  | succ fuel ih =>
    have hten : (10 : ℚ) ≠ 0 := by norm_num
    cases m with
    | zero =>
      unfold expDown
      rw [if_neg]
      push_neg
      simpa using h1
    | succ m =>
      have h1' : (10 : ℚ) ^ (-((m : ℤ) + 1)) ≤ x := by exact_mod_cast h1
      have h2' : x < (10 : ℚ) ^ (1 - ((m : ℤ) + 1)) := by exact_mod_cast h2
      have e1 : (10 : ℚ) ^ (-(m : ℤ)) = 10 ^ (-((m : ℤ) + 1)) * 10 := by
        rw [← zpow_add_one₀ hten]
        congr 1
        ring
      have e2 : (10 : ℚ) ^ (1 - (m : ℤ)) = 10 ^ (1 - ((m : ℤ) + 1)) * 10 := by
        rw [← zpow_add_one₀ hten]
        congr 1
        ring
      have hcond : x < 1 := by
        calc x < 10 ^ (1 - ((m : ℤ) + 1)) := h2'
        _ ≤ 10 ^ (0 : ℤ) := by
            apply zpow_le_zpow_right₀ (by norm_num)
            omega
        _ = 1 := by norm_num
      unfold expDown
      rw [if_pos hcond, ih (x * 10) m]
      · rw [e1]
        exact mul_le_mul_of_nonneg_right h1' (by norm_num)
      · calc x * 10 < 10 ^ (1 - ((m : ℤ) + 1)) * 10 :=
            mul_lt_mul_of_pos_right h2' (by norm_num)
        _ = 10 ^ (1 - (m : ℤ)) := e2.symm
      · omega

/-- Characterisation of `decExp` by the enclosing powers of ten, for
exponents within the double range. -/
lemma decExp_eq (x : ℚ) (e : ℤ) (h1 : (10 : ℚ) ^ e ≤ x)
    (h2 : x < (10 : ℚ) ^ (e + 1)) (he : e.natAbs ≤ 399) : decExp x = e := by
  unfold decExp expFuel
  rcases le_or_lt 0 e with hpos | hneg
  · have hx1 : (1 : ℚ) ≤ x := by
      calc (1 : ℚ) = 10 ^ (0 : ℤ) := by norm_num
      _ ≤ 10 ^ e := zpow_le_zpow_right₀ (by norm_num) hpos
      _ ≤ x := h1
    have het : ((10 : ℚ) ^ (e.toNat : ℕ)) = 10 ^ e := by
      rw [← zpow_natCast]
      congr 1
      omega
    have het1 : ((10 : ℚ) ^ ((e.toNat : ℕ) + 1)) = 10 ^ (e + 1) := by
      rw [← zpow_natCast]
      congr 1
      push_cast
      omega
    rw [if_pos hx1, expUp_eval 400 x e.toNat (by rw [het]; exact h1)
      (by rw [het1]; exact h2) (by omega)]
    omega
  · have hx1 : ¬ (1 : ℚ) ≤ x := by
      push_neg
      calc x < 10 ^ (e + 1) := h2
      _ ≤ 10 ^ (0 : ℤ) := zpow_le_zpow_right₀ (by norm_num) (by omega)
      _ = 1 := by norm_num
    have het : ((10 : ℚ) ^ (-(((-e).toNat : ℕ) : ℤ))) = 10 ^ e := by
      congr 1
      omega
    have het1 : ((10 : ℚ) ^ (1 - (((-e).toNat : ℕ) : ℤ))) = 10 ^ (e + 1) := by
      congr 1
      omega
    rw [if_neg hx1, expDown_eval 400 x (-e).toNat (by rw [het]; exact h1)
      (by rw [het1]; exact h2) (by omega)]
    omega

/-- Closed-form evaluation of `toPrecision15` on a positive value
whose scaled rounding is the integer `n`. -/
lemma toPrecision15_eval (x : ℚ) (e n : ℤ) (hx : 0 < x)
    (h1 : (10 : ℚ) ^ e ≤ x) (h2 : x < (10 : ℚ) ^ (e + 1)) (he : e.natAbs ≤ 399)
    (hn : round (x * (10 : ℚ) ^ (14 - e)) = n) :
    toPrecision15 x = (n : ℚ) * (10 : ℚ) ^ (e - 14) := by
  unfold toPrecision15 toPrecision15pos
  rw [if_neg (by linarith), if_neg (by linarith), decExp_eq x e h1 h2 he,
    show -(e - 14) = 14 - e by ring, hn]

/-- A positive value that is exactly representable with 15 significant
digits is fixed by `toPrecision15`. -/
lemma toPrecision15_eq_self (x : ℚ) (e n : ℤ) (hx : 0 < x)
    (h1 : (10 : ℚ) ^ e ≤ x) (h2 : x < (10 : ℚ) ^ (e + 1)) (he : e.natAbs ≤ 399)
    (hn : x * (10 : ℚ) ^ (14 - e) = (n : ℚ)) : toPrecision15 x = x := by
  rw [toPrecision15_eval x e n hx h1 h2 he (by rw [hn, round_intCast]), ← hn,
    mul_assoc, ← zpow_add₀ (by norm_num : (10 : ℚ) ≠ 0)]
  norm_num

/-- Evaluation of `round` from a bracketing of `x + 1/2`. -/
lemma round_eval (x : ℚ) (n : ℤ) (h1 : (n : ℚ) ≤ x + 1 / 2)
    (h2 : x + 1 / 2 < n + 1) : round x = n := by
  rw [round_eq, Int.floor_eq_iff]
  constructor
  · exact_mod_cast h1
  · exact_mod_cast h2

/-- The error of rounding to `1/n` steps is at most half a step. -/
lemma roundTo_err (n : ℕ) (hn : 0 < n) (x : ℚ) :
    |roundTo n x - x| ≤ 1 / (2 * n) := by
  have hq : (0 : ℚ) < n := by exact_mod_cast hn
  have h := abs_sub_round (x * n)
  have hrw : roundTo n x - x = ((round (x * n) : ℚ) - x * n) / n := by
    field_simp [roundTo]
    ring
  rw [hrw, abs_div, abs_of_pos hq, div_le_div_iff₀ hq (by positivity)]
  rw [abs_sub_comm] at h
  calc |(round (x * n) : ℚ) - x * n| * (2 * n) ≤ (1 / 2) * (2 * n) := by
        apply mul_le_mul_of_nonneg_right h (by positivity)
  _ = n := by ring
  _ = 1 * n := by ring

/-- Round-trip error bound for an affine conversion and its exact
inverse, both followed by rounding to `1/n` steps: at most `14/5` of a
half step (the slope of the inverse leg is at most `9/5`). -/
lemma roundTo_rt_bound (n : ℕ) (hn : 0 < n) (a b a2 b2 v : ℚ)
    (ha : a2 * a = 1) (hb : a2 * b + b2 = 0) (hs1 : -(9 / 5) ≤ a2) (hs2 : a2 ≤ 9 / 5) :
    |roundTo n (a2 * roundTo n (a * v + b) + b2) - v| ≤ 7 / (5 * n) := by
  have hs : |a2| ≤ 9 / 5 := abs_le.2 ⟨hs1, hs2⟩
  have hq : (0 : ℚ) < n := by exact_mod_cast hn
  have hd : |roundTo n (a * v + b) - (a * v + b)| ≤ 1 / (2 * n) :=
    roundTo_err n hn (a * v + b)
  have key : a2 * roundTo n (a * v + b) + b2 =
      v + a2 * (roundTo n (a * v + b) - (a * v + b)) := by
    have hv : a2 * (a * v + b) + b2 = v := by
      calc a2 * (a * v + b) + b2 = (a2 * a) * v + (a2 * b + b2) := by ring
      _ = v := by rw [ha, hb]; ring
    calc a2 * roundTo n (a * v + b) + b2 =
        (a2 * (a * v + b) + b2) + a2 * (roundTo n (a * v + b) - (a * v + b)) := by
          ring
    _ = v + a2 * (roundTo n (a * v + b) - (a * v + b)) := by rw [hv]
  have h2 : |roundTo n (a2 * roundTo n (a * v + b) + b2) -
      (a2 * roundTo n (a * v + b) + b2)| ≤ 1 / (2 * n) :=
    roundTo_err n hn _
  have h3 : |a2 * (roundTo n (a * v + b) - (a * v + b))| ≤ (9 / 5) * (1 / (2 * n)) := by
    rw [abs_mul]
    apply mul_le_mul hs hd (abs_nonneg _) (by norm_num)
  have hsum : 1 / (2 * (n : ℚ)) + (9 / 5) * (1 / (2 * n)) = 7 / (5 * n) := by
    field_simp
    ring
  calc |roundTo n (a2 * roundTo n (a * v + b) + b2) - v| ≤
      |roundTo n (a2 * roundTo n (a * v + b) + b2) -
        (a2 * roundTo n (a * v + b) + b2)| +
      |(a2 * roundTo n (a * v + b) + b2) - v| := abs_sub_le _ _ _
  _ ≤ 1 / (2 * n) + (9 / 5) * (1 / (2 * n)) := by
      apply add_le_add h2
      rw [key]
      simpa using h3
  _ = 7 / (5 * n) := hsum

end IoTTemp

namespace IoTTemp
open TemperatureConversionService

lemma mem_values_iff (u : String) :
    u ∈ TemperatureUnit.values ↔ u = "celsius" ∨ u = "fahrenheit" ∨ u = "kelvin" := by
  simp [TemperatureUnit.values, TemperatureUnit.CELSIUS, TemperatureUnit.FAHRENHEIT,
    TemperatureUnit.KELVIN]

lemma contains_values_iff (u : String) :
    TemperatureUnit.values.contains u = true ↔ u ∈ TemperatureUnit.values := by
  simp

lemma validateTemperature_celsius (q : ℚ) (p : Option TemperaturePrecisionContext) :
    validateTemperature { value := JSNumber.finiteNum q, unit := "celsius", precision := p } =
      if q < -273.15 then
        Except.error (ConvFailure.convErr
          { message := "Temperature cannot be below absolute zero (Celsius)"
            code := "BELOW_ABSOLUTE_ZERO"
            field := some "temperature.value"
            value := some (ErrValue.num (JSNumber.finiteNum q)) })
      else Except.ok () := rfl

lemma validateTemperature_fahrenheit (q : ℚ) (p : Option TemperaturePrecisionContext) :
    validateTemperature { value := JSNumber.finiteNum q, unit := "fahrenheit", precision := p } =
      if q < -459.67 then
        Except.error (ConvFailure.convErr
          { message := "Temperature cannot be below absolute zero (Fahrenheit)"
            code := "BELOW_ABSOLUTE_ZERO"
            field := some "temperature.value"
            value := some (ErrValue.num (JSNumber.finiteNum q)) })
      else Except.ok () := rfl

lemma validateTemperature_kelvin (q : ℚ) (p : Option TemperaturePrecisionContext) :
    validateTemperature { value := JSNumber.finiteNum q, unit := "kelvin", precision := p } =
      if q < 0 then
        Except.error (ConvFailure.convErr
          { message := "Temperature cannot be below absolute zero (Kelvin)"
            code := "BELOW_ABSOLUTE_ZERO"
            field := some "temperature.value"
            value := some (ErrValue.num (JSNumber.finiteNum q)) })
      else Except.ok () := rfl

lemma validateTemperature_nonfinite (t : TemperatureValue) (h : t.value.isFinite = false) :
    validateTemperature t = Except.error (ConvFailure.convErr
      { message := "Temperature value must be a valid finite number"
        code := "INVALID_TEMPERATURE_VALUE"
        field := some "temperature.value"
        value := some (ErrValue.num t.value) }) := by
  simp [validateTemperature, h]

lemma validateTemperature_invalidUnit (t : TemperatureValue)
    (hf : t.value.isFinite = true)
    (hu : TemperatureUnit.values.contains t.unit = false) :
    validateTemperature t = Except.error (ConvFailure.convErr
      { message := "Invalid temperature unit: " ++ t.unit
        code := "INVALID_TEMPERATURE_UNIT"
        field := some "temperature.unit"
        value := some (ErrValue.str t.unit) }) := by
  unfold validateTemperature
  rw [hf, hu]
  rfl

lemma isFinite_of_valid (t : TemperatureValue)
    (h : validateTemperature t = Except.ok ()) : t.value.isFinite = true := by
  by_contra hf
  rw [validateTemperature_nonfinite t (by simpa using hf)] at h
  cases h

lemma exists_q_of_valid (t : TemperatureValue)
    (h : validateTemperature t = Except.ok ()) :
    ∃ q, t.value = JSNumber.finiteNum q := by
  have hf := isFinite_of_valid t h
  cases hv : t.value with
  | finiteNum q => exact ⟨q, rfl⟩
  | nanNum => rw [hv] at hf; cases hf
  | posInfNum => rw [hv] at hf; cases hf
  | negInfNum => rw [hv] at hf; cases hf

lemma unit_mem_of_valid (t : TemperatureValue)
    (h : validateTemperature t = Except.ok ()) : t.unit ∈ TemperatureUnit.values := by
  by_contra hu
  have hf := isFinite_of_valid t h
  rw [validateTemperature_invalidUnit t hf (by simpa using hu)] at h
  cases h

lemma performConversion_self (v : ℚ) (u : String) :
    performConversion v u u = Except.ok v := by
  unfold performConversion
  rw [if_pos rfl]

lemma performConversion_c_f (v : ℚ) :
    performConversion v "celsius" "fahrenheit" =
      Except.ok ((v + 273.15) * (9 / 5) - 459.67) := rfl

lemma performConversion_f_c (v : ℚ) :
    performConversion v "fahrenheit" "celsius" =
      Except.ok ((v + 459.67) * (5 / 9) - 273.15) := rfl

lemma performConversion_c_k (v : ℚ) :
    performConversion v "celsius" "kelvin" = Except.ok (v + 273.15) := rfl

lemma performConversion_k_c (v : ℚ) :
    performConversion v "kelvin" "celsius" = Except.ok (v - 273.15) := rfl

lemma performConversion_f_k (v : ℚ) :
    performConversion v "fahrenheit" "kelvin" =
      Except.ok ((v + 459.67) * (5 / 9)) := rfl

lemma performConversion_k_f (v : ℚ) :
    performConversion v "kelvin" "fahrenheit" =
      Except.ok (v * (9 / 5) - 459.67) := rfl

lemma performConversion_ok (v : ℚ) (u w : String)
    (hu : u ∈ TemperatureUnit.values) (hw : w ∈ TemperatureUnit.values) :
    ∃ r, performConversion v u w = Except.ok r := by
  rcases (mem_values_iff u).1 hu with h | h | h <;>
    rcases (mem_values_iff w).1 hw with g | g | g <;> subst h <;> subst g <;>
    exact ⟨_, rfl⟩

lemma convertToKelvin_genericErr (v : ℚ) (u : String) (e : ConvFailure)
    (h : convertToKelvin v u = Except.error e) :
    ∃ msg, e = ConvFailure.genericErr msg := by
  unfold convertToKelvin at h
  split_ifs at h
  all_goals cases h
  all_goals exact ⟨_, rfl⟩

lemma convertFromKelvin_genericErr (v : ℚ) (w : String) (e : ConvFailure)
    (h : convertFromKelvin v w = Except.error e) :
    ∃ msg, e = ConvFailure.genericErr msg := by
  unfold convertFromKelvin at h
  split_ifs at h
  all_goals cases h
  all_goals exact ⟨_, rfl⟩

lemma performConversion_genericErr (v : ℚ) (u w : String) (e : ConvFailure)
    (h : performConversion v u w = Except.error e) :
    ∃ msg, e = ConvFailure.genericErr msg := by
  unfold performConversion at h
  by_cases huw : u = w
  · rw [if_pos huw] at h
    cases h
  · rw [if_neg huw] at h
    cases hk : convertToKelvin v u with
    | error e2 =>
      rw [hk] at h
      cases h
      exact convertToKelvin_genericErr v u _ hk
    | ok k =>
      rw [hk] at h
      exact convertFromKelvin_genericErr k w e h

lemma convert_ok (req : ConversionRequest) (v raw : ℚ)
    (hval : validateTemperature req.temperature = Except.ok ())
    (hv : req.temperature.value = JSNumber.finiteNum v)
    (hperf : performConversion v req.temperature.unit req.targetUnit = Except.ok raw) :
    convert req = Except.ok
      { original := req.temperature
        converted :=
          { value := JSNumber.finiteNum (applyPrecision raw
              (req.precision.getD TemperaturePrecisionContext.SCIENTIFIC))
            unit := req.targetUnit
            precision := some (req.precision.getD TemperaturePrecisionContext.SCIENTIFIC) }
        precision := req.precision.getD TemperaturePrecisionContext.SCIENTIFIC
        conversionMethod := "NIST-" ++ req.temperature.unit ++ "-to-" ++ req.targetUnit } := by
  unfold convert
  simp only [hval, hv, hperf]

lemma convert_error (req : ConversionRequest) (e : ConvFailure)
    (hval : validateTemperature req.temperature = Except.error e) :
    convert req = Except.error e := by
  unfold convert
  simp only [hval]

lemma convert_perfError (req : ConversionRequest) (v : ℚ) (e : ConvFailure)
    (hval : validateTemperature req.temperature = Except.ok ())
    (hv : req.temperature.value = JSNumber.finiteNum v)
    (hperf : performConversion v req.temperature.unit req.targetUnit = Except.error e) :
    convert req = Except.error e := by
  unfold convert
  simp only [hval, hv, hperf]

lemma convert_ok_of_valid (t : TemperatureValue) (w : String)
    (p : Option TemperaturePrecisionContext)
    (h : validateTemperature t = Except.ok ()) (hw : w ∈ TemperatureUnit.values) :
    ∃ q raw, t.value = JSNumber.finiteNum q ∧
      performConversion q t.unit w = Except.ok raw ∧
      convert { temperature := t, targetUnit := w, precision := p } = Except.ok
        { original := t
          converted :=
            { value := JSNumber.finiteNum (applyPrecision raw
                (p.getD TemperaturePrecisionContext.SCIENTIFIC))
              unit := w
              precision := some (p.getD TemperaturePrecisionContext.SCIENTIFIC) }
          precision := p.getD TemperaturePrecisionContext.SCIENTIFIC
          conversionMethod := "NIST-" ++ t.unit ++ "-to-" ++ w } := by
  obtain ⟨q, hq⟩ := exists_q_of_valid t h
  obtain ⟨raw, hraw⟩ := performConversion_ok q t.unit w (unit_mem_of_valid t h) hw
  exact ⟨q, raw, hq, hraw, convert_ok _ q raw h hq hraw⟩

end IoTTemp

namespace IoTTemp
open TemperatureConversionService

-- batch machinery
lemma batchConvert_conversions (request : BatchConversionRequest)
    (conversions : List ConversionResponse)
    (h : request.temperatures.mapM (fun temperature =>
        convert
          { temperature := temperature
            targetUnit := request.targetUnit
            precision := request.precision }) = Except.ok conversions) :
    batchConvert request = Except.ok
      { conversions := conversions, totalCount := conversions.length } := by
  unfold batchConvert
  simp only [h]

lemma batchConvert_error (request : BatchConversionRequest) (e : ConvFailure)
    (h : request.temperatures.mapM (fun temperature =>
        convert
          { temperature := temperature
            targetUnit := request.targetUnit
            precision := request.precision }) = Except.error e) :
    batchConvert request = Except.error e := by
  unfold batchConvert
  simp only [h]

lemma mapM_nil (f : TemperatureValue → Except ConvFailure ConversionResponse) :
    List.mapM f [] = Except.ok [] := rfl

lemma mapM_cons_error (f : TemperatureValue → Except ConvFailure ConversionResponse)
    (t : TemperatureValue) (ts : List TemperatureValue) (e : ConvFailure)
    (h : f t = Except.error e) :
    List.mapM f (t :: ts) = Except.error e := by
  rw [List.mapM_cons, h]
  rfl

lemma mapM_cons_ok (f : TemperatureValue → Except ConvFailure ConversionResponse)
    (t : TemperatureValue) (ts : List TemperatureValue) (c : ConversionResponse)
    (cs : List ConversionResponse)
    (h : f t = Except.ok c) (hs : List.mapM f ts = Except.ok cs) :
    List.mapM f (t :: ts) = Except.ok (c :: cs) := by
  rw [List.mapM_cons, h, hs]
  rfl

lemma mapM_cons_tail_error (f : TemperatureValue → Except ConvFailure ConversionResponse)
    (t : TemperatureValue) (ts : List TemperatureValue) (c : ConversionResponse)
    (e : ConvFailure)
    (h : f t = Except.ok c) (hs : List.mapM f ts = Except.error e) :
    List.mapM f (t :: ts) = Except.error e := by
  rw [List.mapM_cons, h, hs]
  rfl

end IoTTemp

namespace IoTTemp
open TemperatureConversionService

lemma getAbsoluteZeroInfo_cases (u : String) (az : ℚ) (nm : String)
    (hz : getAbsoluteZeroInfo u = some (az, nm)) :
    (u = "kelvin" ∧ az = 0 ∧ nm = "Kelvin") ∨
    (u = "celsius" ∧ az = -273.15 ∧ nm = "Celsius") ∨
    (u = "fahrenheit" ∧ az = -459.67 ∧ nm = "Fahrenheit") := by
  unfold getAbsoluteZeroInfo at hz
  split_ifs at hz with h1 h2 h3
  · cases hz
    exact Or.inl ⟨h1, rfl, rfl⟩
  · cases hz
    exact Or.inr (Or.inl ⟨h2, rfl, rfl⟩)
  · cases hz
    exact Or.inr (Or.inr ⟨h3, rfl, rfl⟩)

lemma validateTemperature_ok_iff (q az : ℚ) (u nm : String)
    (tp : Option TemperaturePrecisionContext)
    (hz : getAbsoluteZeroInfo u = some (az, nm)) :
    validateTemperature { value := JSNumber.finiteNum q, unit := u, precision := tp } =
      Except.ok () ↔ az ≤ q := by
  rcases getAbsoluteZeroInfo_cases u az nm hz with ⟨hu, ha, -⟩ | ⟨hu, ha, -⟩ | ⟨hu, ha, -⟩ <;>
    subst hu <;> subst ha
  · rw [validateTemperature_kelvin]
    constructor
    · intro hx
      by_contra hq
      push_neg at hq
      rw [if_pos hq] at hx
      cases hx
    · intro hx
      rw [if_neg (by linarith)]
  · rw [validateTemperature_celsius]
    constructor
    · intro hx
      by_contra hq
      push_neg at hq
      rw [if_pos hq] at hx
      cases hx
    · intro hx
      rw [if_neg (by linarith)]
  · rw [validateTemperature_fahrenheit]
    constructor
    · intro hx
      by_contra hq
      push_neg at hq
      rw [if_pos hq] at hx
      cases hx
    · intro hx
      rw [if_neg (by linarith)]

lemma validateTemperature_belowZero (q az : ℚ) (u nm : String)
    (tp : Option TemperaturePrecisionContext)
    (hz : getAbsoluteZeroInfo u = some (az, nm)) (hlt : q < az) :
    validateTemperature { value := JSNumber.finiteNum q, unit := u, precision := tp } =
      Except.error (ConvFailure.convErr
        { message := "Temperature cannot be below absolute zero (" ++ nm ++ ")"
          code := "BELOW_ABSOLUTE_ZERO"
          field := some "temperature.value"
          value := some (ErrValue.num (JSNumber.finiteNum q)) }) := by
  rcases getAbsoluteZeroInfo_cases u az nm hz with ⟨hu, ha, hn⟩ | ⟨hu, ha, hn⟩ | ⟨hu, ha, hn⟩ <;>
    subst hu <;> subst ha <;> subst hn
  · rw [validateTemperature_kelvin, if_pos hlt]
    rfl
  · rw [validateTemperature_celsius, if_pos hlt]
    rfl
  · rw [validateTemperature_fahrenheit, if_pos hlt]
    rfl

lemma convertFromKelvin_unsupported (k : ℚ) (w : String)
    (hw : w ∉ TemperatureUnit.values) :
    convertFromKelvin k w = Except.error (ConvFailure.genericErr
      ("Unsupported temperature unit: " ++ w)) := by
  unfold convertFromKelvin
  split_ifs with h1 h2 h3
  · exact absurd ((mem_values_iff w).2 (Or.inr (Or.inr h1))) hw
  · exact absurd ((mem_values_iff w).2 (Or.inl h2)) hw
  · exact absurd ((mem_values_iff w).2 (Or.inr (Or.inl h3))) hw
  · rfl

lemma performConversion_unsupported_target (q : ℚ) (u w : String)
    (hu : u ∈ TemperatureUnit.values) (hw : w ∉ TemperatureUnit.values) :
    performConversion q u w = Except.error (ConvFailure.genericErr
      ("Unsupported temperature unit: " ++ w)) := by
  have huw : u ≠ w := fun h => hw (h ▸ hu)
  unfold performConversion
  rw [if_neg huw]
  rcases (mem_values_iff u).1 hu with h | h | h <;> subst h <;>
    exact convertFromKelvin_unsupported _ w hw

lemma convertErrorCode_of_validation_error (req : ConversionRequest) (e : ConversionError)
    (h : validateTemperature req.temperature = Except.error (ConvFailure.convErr e)) :
    convertErrorCode req = some e.code := by
  unfold convertErrorCode
  rw [convert_error req _ h]
  rfl

lemma convertErrorCode_none_of_valid (req : ConversionRequest)
    (h : validateTemperature req.temperature = Except.ok ()) :
    convertErrorCode req = none := by
  obtain ⟨q, hq⟩ := exists_q_of_valid _ h
  unfold convertErrorCode
  cases hperf : performConversion q req.temperature.unit req.targetUnit with
  | ok raw => rw [convert_ok req q raw h hq hperf]
  | error e =>
    rw [convert_perfError req q e h hq hperf]
    obtain ⟨msg, rfl⟩ := performConversion_genericErr _ _ _ _ hperf
    rfl

lemma except_bind_ok (a : ℚ) (f : ℚ → Except ConvFailure ℚ) :
    (Except.ok a : Except ConvFailure ℚ).bind f = f a := rfl

lemma except_map_ok (a : ℚ) (f : ℚ → ℚ) :
    (Except.ok a : Except ConvFailure ℚ).map f = Except.ok (f a) := rfl

lemma batchConvert_error_inv (request : BatchConversionRequest) (e : ConvFailure)
    (h : batchConvert request = Except.error e) :
    request.temperatures.mapM (fun temperature =>
      convert
        { temperature := temperature
          targetUnit := request.targetUnit
          precision := request.precision }) = Except.error e := by
  unfold batchConvert at h
  cases hm : request.temperatures.mapM (fun temperature =>
      convert
        { temperature := temperature
          targetUnit := request.targetUnit
          precision := request.precision }) with
  | ok cs =>
    rw [hm] at h
    cases h
  | error e2 =>
    rw [hm] at h
    cases h
    rfl

lemma applyPrecision_eq_roundTo (p : TemperaturePrecisionContext) (n : ℕ)
    (h : decimalScale p = some n) (x : ℚ) : applyPrecision x p = roundTo n x := by
  cases p
  · cases h
    unfold applyPrecision roundTo
    norm_num
  · cases h
    unfold applyPrecision roundTo
    norm_num
  · cases h
    unfold applyPrecision roundTo
    norm_num
  · cases h

end IoTTemp

namespace IoTTemp
open TemperatureConversionService

lemma unit_mem_of_absZero (u : String) (az : ℚ) (nm : String)
    (hz : getAbsoluteZeroInfo u = some (az, nm)) : u ∈ TemperatureUnit.values := by
  rcases getAbsoluteZeroInfo_cases u az nm hz with ⟨h, -, -⟩ | ⟨h, -, -⟩ | ⟨h, -, -⟩ <;> subst h
  · exact (mem_values_iff _).2 (Or.inr (Or.inr rfl))
  · exact (mem_values_iff _).2 (Or.inl rfl)
  · exact (mem_values_iff _).2 (Or.inr (Or.inl rfl))

lemma toPrecision15_zero : toPrecision15 0 = 0 := by
  unfold toPrecision15
  rw [if_pos rfl]

lemma convertedValueQ_sci (q raw : ℚ) (u w : String)
    (tp : Option TemperaturePrecisionContext)
    (hval : validateTemperature { value := JSNumber.finiteNum q, unit := u, precision := tp } =
      Except.ok ())
    (hperf : performConversion q u w = Except.ok raw)
    (hfix : toPrecision15 raw = raw) :
    convertedValueQ
      { temperature := { value := JSNumber.finiteNum q, unit := u, precision := tp }
        targetUnit := w
        precision := none } = some raw := by
  unfold convertedValueQ
  rw [convert_ok _ q raw hval rfl hperf]
  show some (applyPrecision raw TemperaturePrecisionContext.SCIENTIFIC) = some raw
  unfold applyPrecision
  rw [hfix]

/-- Claim C1 (amended theorem): for every recognised unit `u` and value
`q` at or above that unit's absolute zero, an identity conversion
performs no unit arithmetic — `performConversion` returns the value
unchanged — and `convert` returns that value with only the effective
precision context's rounding applied (rounding is not skipped for
identity conversions). -/
theorem claim_C1 (q az : ℚ) (u nm : String)
    (tp p' : Option TemperaturePrecisionContext)
    (hz : getAbsoluteZeroInfo u = some (az, nm)) (hq : az ≤ q) :
    performConversion q u u = Except.ok q ∧
    convert { temperature := { value := JSNumber.finiteNum q, unit := u, precision := tp }
              targetUnit := u
              precision := p' } = Except.ok
      { original := { value := JSNumber.finiteNum q, unit := u, precision := tp }
        converted :=
          { value := JSNumber.finiteNum (applyPrecision q
              (p'.getD TemperaturePrecisionContext.SCIENTIFIC))
            unit := u
            precision := some (p'.getD TemperaturePrecisionContext.SCIENTIFIC) }
        precision := p'.getD TemperaturePrecisionContext.SCIENTIFIC
        conversionMethod := "NIST-" ++ u ++ "-to-" ++ u } := by
  refine ⟨performConversion_self q u, ?_⟩
  exact convert_ok _ q q ((validateTemperature_ok_iff q az u nm tp hz).2 hq) rfl
    (performConversion_self q u)

/-- Claim C1 (witness): the amended theorem at 25 °C under CONSUMER
precision. -/
theorem claim_C1_witness :
    getAbsoluteZeroInfo "celsius" = some (-273.15, "Celsius") ∧ (-273.15 : ℚ) ≤ 25 ∧
    (performConversion 25 "celsius" "celsius" = Except.ok 25 ∧
      convert { temperature := { value := JSNumber.finiteNum 25, unit := "celsius", precision := none }
                targetUnit := "celsius"
                precision := some TemperaturePrecisionContext.CONSUMER } = Except.ok
        { original := { value := JSNumber.finiteNum 25, unit := "celsius", precision := none }
          converted :=
            { value := JSNumber.finiteNum (applyPrecision 25
                ((some TemperaturePrecisionContext.CONSUMER).getD
                  TemperaturePrecisionContext.SCIENTIFIC))
              unit := "celsius"
              precision := some ((some TemperaturePrecisionContext.CONSUMER).getD
                TemperaturePrecisionContext.SCIENTIFIC) }
          precision := (some TemperaturePrecisionContext.CONSUMER).getD
            TemperaturePrecisionContext.SCIENTIFIC
          conversionMethod := "NIST-" ++ "celsius" ++ "-to-" ++ "celsius" }) :=
  ⟨rfl, by norm_num,
    claim_C1 25 (-273.15) "celsius" "Celsius" none
      (some TemperaturePrecisionContext.CONSUMER) rfl (by norm_num)⟩

/-- Claim C1 (counterexample): an identity conversion of 0.123 °C
under CONSUMER precision returns 0.12, not 0.123 — rounding is
applied to identity conversions, refuting the claim as stated. -/
theorem claim_C1_counterexample :
    convertedValueQ
      { temperature := { value := JSNumber.finiteNum (123 / 1000), unit := "celsius", precision := none }
        targetUnit := "celsius"
        precision := some TemperaturePrecisionContext.CONSUMER } = some (3 / 25) ∧
    (3 / 25 : ℚ) ≠ 123 / 1000 := by
  constructor
  · unfold convertedValueQ
    rw [convert_ok _ (123 / 1000) (123 / 1000)
      ((validateTemperature_ok_iff (123 / 1000) (-273.15) "celsius" "Celsius" none rfl).2
        (by norm_num))
      rfl (performConversion_self _ _)]
    show some (applyPrecision (123 / 1000) TemperaturePrecisionContext.CONSUMER) = _
    unfold applyPrecision
    rw [round_eval (123 / 1000 * 100) 12 (by norm_num) (by norm_num)]
    norm_num
  · norm_num

/-- Claim C2 (amended theorem): `convert` validates fail-fast in the
order (1) finite-number check on the input value (InvalidValue),
(2) membership check on the source unit only (InvalidUnit),
(3) absolute-zero check; the target unit is never validated — a finite,
valid value with an unrecognised target unit fails with the generic
unsupported-unit error raised inside the conversion step, not with
InvalidUnit. -/
theorem claim_C2 :
    (∀ (tval : JSNumber) (u w : String) (tp p : Option TemperaturePrecisionContext),
      tval.isFinite = false →
      convert { temperature := { value := tval, unit := u, precision := tp }
                targetUnit := w
                precision := p } = Except.error (ConvFailure.convErr
        { message := "Temperature value must be a valid finite number"
          code := "INVALID_TEMPERATURE_VALUE"
          field := some "temperature.value"
          value := some (ErrValue.num tval) })) ∧
    (∀ (q : ℚ) (u w : String) (tp p : Option TemperaturePrecisionContext),
      u ∉ TemperatureUnit.values →
      convert { temperature := { value := JSNumber.finiteNum q, unit := u, precision := tp }
                targetUnit := w
                precision := p } = Except.error (ConvFailure.convErr
        { message := "Invalid temperature unit: " ++ u
          code := "INVALID_TEMPERATURE_UNIT"
          field := some "temperature.unit"
          value := some (ErrValue.str u) })) ∧
    (∀ (q : ℚ) (u : String) (tp : Option TemperaturePrecisionContext),
      u ∈ TemperatureUnit.values →
      validateTemperature { value := JSNumber.finiteNum q, unit := u, precision := tp } =
        validateAbsoluteZero q u) ∧
    (∀ (q az : ℚ) (u w nm : String) (tp p : Option TemperaturePrecisionContext),
      getAbsoluteZeroInfo u = some (az, nm) → az ≤ q → w ∉ TemperatureUnit.values →
      convert { temperature := { value := JSNumber.finiteNum q, unit := u, precision := tp }
                targetUnit := w
                precision := p } =
        Except.error (ConvFailure.genericErr ("Unsupported temperature unit: " ++ w))) := by
  refine ⟨?_, ?_, ?_, ?_⟩
  · intro tval u w tp p h
    exact convert_error _ _ (validateTemperature_nonfinite _ h)
  · intro q u w tp p hu
    exact convert_error _ _ (validateTemperature_invalidUnit _ rfl (by simpa using hu))
  · intro q u tp hu
    rcases (mem_values_iff u).1 hu with h | h | h <;> subst h <;> rfl
  · intro q az u w nm tp p hz hq hw
    exact convert_perfError _ q _ ((validateTemperature_ok_iff q az u nm tp hz).2 hq) rfl
      (performConversion_unsupported_target q u w (unit_mem_of_absZero u az nm hz) hw)

/-- Claim C2 (witness): the amended theorem's clauses at concrete
inputs — a NaN value fails with INVALID_TEMPERATURE_VALUE, and a valid
20 °C with target `"rankine"` fails with the generic unsupported-unit
error. -/
theorem claim_C2_witness :
    (JSNumber.nanNum.isFinite = false ∧
      convert { temperature := { value := JSNumber.nanNum, unit := "celsius", precision := none }
                targetUnit := "fahrenheit"
                precision := none } =
        Except.error (ConvFailure.convErr
          { message := "Temperature value must be a valid finite number"
            code := "INVALID_TEMPERATURE_VALUE"
            field := some "temperature.value"
            value := some (ErrValue.num JSNumber.nanNum) })) ∧
    (getAbsoluteZeroInfo "celsius" = some (-273.15, "Celsius") ∧ (-273.15 : ℚ) ≤ 20 ∧
      "rankine" ∉ TemperatureUnit.values ∧
      convert { temperature := { value := JSNumber.finiteNum 20, unit := "celsius", precision := none }
                targetUnit := "rankine"
                precision := none } =
        Except.error (ConvFailure.genericErr ("Unsupported temperature unit: " ++ "rankine"))) :=
  ⟨⟨rfl, claim_C2.1 JSNumber.nanNum "celsius" "fahrenheit" none none rfl⟩,
    ⟨rfl, by norm_num, by decide,
      claim_C2.2.2.2 20 (-273.15) "celsius" "rankine" "Celsius" none none rfl
        (by norm_num) (by decide)⟩⟩

/-- Claim C2 (counterexample): a finite, physically valid 20 °C with
the unrecognised target unit `"rankine"` makes `convert` fail with a
plain unsupported-unit `Error`, not with the InvalidUnit
`ConversionError` the claim asserts (`convertErrorCode` is `none`). -/
theorem claim_C2_counterexample :
    convert { temperature := { value := JSNumber.finiteNum 20, unit := "celsius", precision := none }
              targetUnit := "rankine"
              precision := none } =
      Except.error (ConvFailure.genericErr "Unsupported temperature unit: rankine") ∧
    convertErrorCode
      { temperature := { value := JSNumber.finiteNum 20, unit := "celsius", precision := none }
        targetUnit := "rankine"
        precision := none } = none := by
  have h : convert
      { temperature := { value := JSNumber.finiteNum 20, unit := "celsius", precision := none }
        targetUnit := "rankine"
        precision := none } =
      Except.error (ConvFailure.genericErr ("Unsupported temperature unit: " ++ "rankine")) :=
    convert_perfError _ 20 _
      ((validateTemperature_ok_iff 20 (-273.15) "celsius" "Celsius" none rfl).2 (by norm_num))
      rfl
      (performConversion_unsupported_target 20 "celsius" "rankine"
        ((mem_values_iff _).2 (Or.inl rfl)) (by decide))
  constructor
  · exact h.trans rfl
  · unfold convertErrorCode
    rw [h]
    rfl

/-- Claim C4 (theorem): for a finite value with a recognised source
unit, `convert` fails with BELOW_ABSOLUTE_ZERO exactly when the value
is strictly below the unit's own absolute-zero constant (equality is
accepted), regardless of the target unit; in particular −300 °C, −1 K
and −500 °F are rejected with BELOW_ABSOLUTE_ZERO for every target. -/
theorem claim_C4 :
    (∀ (q az : ℚ) (u w nm : String) (tp p : Option TemperaturePrecisionContext),
      getAbsoluteZeroInfo u = some (az, nm) →
      ((convertErrorCode
          { temperature := { value := JSNumber.finiteNum q, unit := u, precision := tp }
            targetUnit := w
            precision := p } = some "BELOW_ABSOLUTE_ZERO") ↔ q < az) ∧
      (validateTemperature { value := JSNumber.finiteNum q, unit := u, precision := tp } =
          Except.ok () ↔ az ≤ q)) ∧
    (∀ (w : String) (tp p : Option TemperaturePrecisionContext),
      convertErrorCode
        { temperature := { value := JSNumber.finiteNum (-300), unit := "celsius", precision := tp }
          targetUnit := w
          precision := p } = some "BELOW_ABSOLUTE_ZERO") ∧
    (∀ (w : String) (tp p : Option TemperaturePrecisionContext),
      convertErrorCode
        { temperature := { value := JSNumber.finiteNum (-1), unit := "kelvin", precision := tp }
          targetUnit := w
          precision := p } = some "BELOW_ABSOLUTE_ZERO") ∧
    (∀ (w : String) (tp p : Option TemperaturePrecisionContext),
      convertErrorCode
        { temperature := { value := JSNumber.finiteNum (-500), unit := "fahrenheit", precision := tp }
          targetUnit := w
          precision := p } = some "BELOW_ABSOLUTE_ZERO") := by
  refine ⟨?_, ?_, ?_, ?_⟩
  · intro q az u w nm tp p hz
    constructor
    · by_cases hlt : q < az
      · constructor
        · intro _
          exact hlt
        · intro _
          rw [convertErrorCode_of_validation_error _ _
            (validateTemperature_belowZero q az u nm tp hz hlt)]
      · push_neg at hlt
        rw [convertErrorCode_none_of_valid _
          ((validateTemperature_ok_iff q az u nm tp hz).2 hlt)]
        constructor
        · intro hx
          cases hx
        · intro hx
          exact absurd hx (not_lt.2 hlt)
    · exact validateTemperature_ok_iff q az u nm tp hz
  · intro w tp p
    rw [convertErrorCode_of_validation_error _ _
      (validateTemperature_belowZero (-300) (-273.15) "celsius" "Celsius" tp rfl (by norm_num))]
  · intro w tp p
    rw [convertErrorCode_of_validation_error _ _
      (validateTemperature_belowZero (-1) 0 "kelvin" "Kelvin" tp rfl (by norm_num))]
  · intro w tp p
    rw [convertErrorCode_of_validation_error _ _
      (validateTemperature_belowZero (-500) (-459.67) "fahrenheit" "Fahrenheit" tp rfl
        (by norm_num))]

/-- Claim C4 (witness): the characterisation at −300 °C with target
Kelvin. -/
theorem claim_C4_witness :
    getAbsoluteZeroInfo "celsius" = some (-273.15, "Celsius") ∧
    ((convertErrorCode
        { temperature := { value := JSNumber.finiteNum (-300), unit := "celsius", precision := none }
          targetUnit := "kelvin"
          precision := none } = some "BELOW_ABSOLUTE_ZERO") ↔ (-300 : ℚ) < -273.15) ∧
    (validateTemperature { value := JSNumber.finiteNum (-300), unit := "celsius", precision := none } =
        Except.ok () ↔ (-273.15 : ℚ) ≤ -300) :=
  ⟨rfl, (claim_C4.1 (-300) (-273.15) "celsius" "kelvin" "Celsius" none none rfl).1,
    (claim_C4.1 (-300) (-273.15) "celsius" "kelvin" "Celsius" none none rfl).2⟩

end IoTTemp

namespace IoTTemp
open TemperatureConversionService

lemma convertedValueQ_eval (q raw : ℚ) (u w : String)
    (tp : Option TemperaturePrecisionContext) (p : TemperaturePrecisionContext)
    (hval : validateTemperature { value := JSNumber.finiteNum q, unit := u, precision := tp } =
      Except.ok ())
    (hperf : performConversion q u w = Except.ok raw) :
    convertedValueQ
      { temperature := { value := JSNumber.finiteNum q, unit := u, precision := tp }
        targetUnit := w
        precision := some p } = some (applyPrecision raw p) := by
  unfold convertedValueQ
  rw [convert_ok _ q raw hval rfl hperf]
  rfl

lemma convertedValueQ_perfError (q : ℚ) (e : ConvFailure) (u w : String)
    (tp pp : Option TemperaturePrecisionContext)
    (hval : validateTemperature { value := JSNumber.finiteNum q, unit := u, precision := tp } =
      Except.ok ())
    (hperf : performConversion q u w = Except.error e) :
    convertedValueQ
      { temperature := { value := JSNumber.finiteNum q, unit := u, precision := tp }
        targetUnit := w
        precision := pp } = none := by
  unfold convertedValueQ
  rw [convert_perfError _ q e hval rfl hperf]

/-- Claim C3 (theorem): conversion between distinct units is routed
through Kelvin with exactly the formulas K = C + 273.15,
K = (F + 459.67)·5/9, C = K − 273.15, F = K·9/5 − 459.67; consequently
(in exact arithmetic) 0 °C ↦ 32 °F, 100 °C ↦ 212 °F, 0 °C ↦ 273.15 K,
273.15 K ↦ 0 °C and 212 °F ↦ 100 °C through `convert` with its default
precision. -/
theorem claim_C3 :
    (∀ v : ℚ, convertToKelvin v "celsius" = Except.ok (v + 273.15)) ∧
    (∀ v : ℚ, convertToKelvin v "fahrenheit" = Except.ok ((v + 459.67) * (5 / 9))) ∧
    (∀ v : ℚ, convertFromKelvin v "celsius" = Except.ok (v - 273.15)) ∧
    (∀ v : ℚ, convertFromKelvin v "fahrenheit" = Except.ok (v * (9 / 5) - 459.67)) ∧
    (∀ (v : ℚ) (u w : String), u ≠ w →
      performConversion v u w = (convertToKelvin v u).bind fun k => convertFromKelvin k w) ∧
    convertedValueQ
      { temperature := { value := JSNumber.finiteNum 0, unit := "celsius", precision := none }
        targetUnit := "fahrenheit"
        precision := none } = some 32 ∧
    convertedValueQ
      { temperature := { value := JSNumber.finiteNum 100, unit := "celsius", precision := none }
        targetUnit := "fahrenheit"
        precision := none } = some 212 ∧
    convertedValueQ
      { temperature := { value := JSNumber.finiteNum 0, unit := "celsius", precision := none }
        targetUnit := "kelvin"
        precision := none } = some 273.15 ∧
    convertedValueQ
      { temperature := { value := JSNumber.finiteNum 273.15, unit := "kelvin", precision := none }
        targetUnit := "celsius"
        precision := none } = some 0 ∧
    convertedValueQ
      { temperature := { value := JSNumber.finiteNum 212, unit := "fahrenheit", precision := none }
        targetUnit := "celsius"
        precision := none } = some 100 := by
  refine ⟨fun v => rfl, fun v => rfl, fun v => rfl, fun v => rfl, ?_, ?_, ?_, ?_, ?_, ?_⟩
  · intro v u w h
    unfold performConversion
    rw [if_neg h]
    cases convertToKelvin v u with
    | error e => rfl
    | ok k => rfl
  · rw [convertedValueQ_sci 0 32 "celsius" "fahrenheit" none
      ((validateTemperature_ok_iff 0 (-273.15) "celsius" "Celsius" none rfl).2 (by norm_num))
      (by rw [performConversion_c_f]; norm_num)
      (toPrecision15_eq_self 32 1 320000000000000 (by norm_num) (by norm_num) (by norm_num)
        (by norm_num) (by norm_num))]
  · rw [convertedValueQ_sci 100 212 "celsius" "fahrenheit" none
      ((validateTemperature_ok_iff 100 (-273.15) "celsius" "Celsius" none rfl).2 (by norm_num))
      (by rw [performConversion_c_f]; norm_num)
      (toPrecision15_eq_self 212 2 212000000000000 (by norm_num) (by norm_num) (by norm_num)
        (by norm_num) (by norm_num))]
  · rw [convertedValueQ_sci 0 273.15 "celsius" "kelvin" none
      ((validateTemperature_ok_iff 0 (-273.15) "celsius" "Celsius" none rfl).2 (by norm_num))
      (by rw [performConversion_c_k]; norm_num)
      (toPrecision15_eq_self 273.15 2 273150000000000 (by norm_num) (by norm_num) (by norm_num)
        (by norm_num) (by norm_num))]
  · rw [convertedValueQ_sci 273.15 0 "kelvin" "celsius" none
      ((validateTemperature_ok_iff 273.15 0 "kelvin" "Kelvin" none rfl).2 (by norm_num))
      (by rw [performConversion_k_c]; norm_num)
      toPrecision15_zero]
  · rw [convertedValueQ_sci 212 100 "fahrenheit" "celsius" none
      ((validateTemperature_ok_iff 212 (-459.67) "fahrenheit" "Fahrenheit" none rfl).2
        (by norm_num))
      (by rw [performConversion_f_c]; norm_num)
      (toPrecision15_eq_self 100 2 100000000000000 (by norm_num) (by norm_num) (by norm_num)
        (by norm_num) (by norm_num))]

/-- Claim C3 (witness): the routing clause at a concrete distinct
pair of units. -/
theorem claim_C3_witness :
    "celsius" ≠ "fahrenheit" ∧
    performConversion (1 / 4) "celsius" "fahrenheit" =
      (convertToKelvin (1 / 4) "celsius").bind fun k => convertFromKelvin k "fahrenheit" :=
  ⟨by decide, claim_C3.2.2.2.2.1 (1 / 4) "celsius" "fahrenheit" (by decide)⟩

end IoTTemp

namespace IoTTemp
open TemperatureConversionService

/-- Claim C5 (theorem): rounding is applied exactly once, after the
conversion, selected by the request's precision context — CONSUMER
rounds to 2 decimals, MEDICAL to 3, INDUSTRIAL to 4, SCIENTIFIC to 15
significant digits —, the context defaults to SCIENTIFIC when the
request omits precision, and 25.123456 °C converts to 77.22 °F under
CONSUMER, 77.2222 under INDUSTRIAL and 77.222 under MEDICAL. -/
theorem claim_C5 :
    (∀ (t : TemperatureValue) (w : String),
      convert { temperature := t, targetUnit := w, precision := none } =
        convert { temperature := t, targetUnit := w, precision := some TemperaturePrecisionContext.SCIENTIFIC }) ∧
    (∀ v : ℚ, applyPrecision v TemperaturePrecisionContext.CONSUMER =
      (round (v * 100) : ℚ) / 100) ∧
    (∀ v : ℚ, applyPrecision v TemperaturePrecisionContext.MEDICAL =
      (round (v * 1000) : ℚ) / 1000) ∧
    (∀ v : ℚ, applyPrecision v TemperaturePrecisionContext.INDUSTRIAL =
      (round (v * 10000) : ℚ) / 10000) ∧
    (∀ v : ℚ, applyPrecision v TemperaturePrecisionContext.SCIENTIFIC = toPrecision15 v) ∧
    (∀ (q raw : ℚ) (u w : String) (tp : Option TemperaturePrecisionContext)
        (p : TemperaturePrecisionContext),
      validateTemperature { value := JSNumber.finiteNum q, unit := u, precision := tp } =
        Except.ok () →
      performConversion q u w = Except.ok raw →
      convertedValueQ
        { temperature := { value := JSNumber.finiteNum q, unit := u, precision := tp }
          targetUnit := w
          precision := some p } = some (applyPrecision raw p)) ∧
    convertedValueQ
      { temperature :=
          { value := JSNumber.finiteNum (25123456 / 1000000)
            unit := "celsius"
            precision := none }
        targetUnit := "fahrenheit"
        precision := some TemperaturePrecisionContext.CONSUMER } = some 77.22 ∧
    convertedValueQ
      { temperature :=
          { value := JSNumber.finiteNum (25123456 / 1000000)
            unit := "celsius"
            precision := none }
        targetUnit := "fahrenheit"
        precision := some TemperaturePrecisionContext.INDUSTRIAL } = some 77.2222 ∧
    convertedValueQ
      { temperature :=
          { value := JSNumber.finiteNum (25123456 / 1000000)
            unit := "celsius"
            precision := none }
        targetUnit := "fahrenheit"
        precision := some TemperaturePrecisionContext.MEDICAL } = some 77.222 := by
  have hval : validateTemperature { value := JSNumber.finiteNum (25123456 / 1000000), unit := "celsius", precision := none } = Except.ok () :=
    (validateTemperature_ok_iff (25123456 / 1000000) (-273.15) "celsius" "Celsius" none rfl).2
      (by norm_num)
  have hperf : performConversion (25123456 / 1000000) "celsius" "fahrenheit" =
      Except.ok (772222208 / 10000000) := by
    rw [performConversion_c_f]
    norm_num
  refine ⟨fun t w => rfl, fun v => rfl, fun v => rfl, fun v => rfl, fun v => rfl,
    ?_, ?_, ?_, ?_⟩
  · intro q raw u w tp p hv hp
    exact convertedValueQ_eval q raw u w tp p hv hp
  · rw [convertedValueQ_eval _ _ _ _ _ _ hval hperf]
    unfold applyPrecision
    rw [round_eval (772222208 / 10000000 * 100) 7722 (by norm_num) (by norm_num)]
    norm_num
  · rw [convertedValueQ_eval _ _ _ _ _ _ hval hperf]
    unfold applyPrecision
    rw [round_eval (772222208 / 10000000 * 10000) 772222 (by norm_num) (by norm_num)]
    norm_num
  · rw [convertedValueQ_eval _ _ _ _ _ _ hval hperf]
    unfold applyPrecision
    rw [round_eval (772222208 / 10000000 * 1000) 77222 (by norm_num) (by norm_num)]
    norm_num

/-- Claim C5 (witness): the rounding-applied-once clause at 25 °C to
Kelvin under CONSUMER precision. -/
theorem claim_C5_witness :
    validateTemperature { value := JSNumber.finiteNum 25, unit := "celsius", precision := none } = Except.ok () ∧
    performConversion 25 "celsius" "kelvin" = Except.ok (25 + 273.15) ∧
    convertedValueQ
      { temperature := { value := JSNumber.finiteNum 25, unit := "celsius", precision := none }
        targetUnit := "kelvin"
        precision := some TemperaturePrecisionContext.CONSUMER } =
      some (applyPrecision (25 + 273.15) TemperaturePrecisionContext.CONSUMER) :=
  ⟨(validateTemperature_ok_iff 25 (-273.15) "celsius" "Celsius" none rfl).2 (by norm_num),
    performConversion_c_k 25,
    claim_C5.2.2.2.2.2.1 25 (25 + 273.15) "celsius" "kelvin" none
      TemperaturePrecisionContext.CONSUMER
      ((validateTemperature_ok_iff 25 (-273.15) "celsius" "Celsius" none rfl).2 (by norm_num))
      (performConversion_c_k 25)⟩

end IoTTemp

namespace IoTTemp
open TemperatureConversionService

lemma convertedValueQ_sci_eval (q raw : ℚ) (u w : String)
    (tp : Option TemperaturePrecisionContext)
    (hval : validateTemperature { value := JSNumber.finiteNum q, unit := u, precision := tp } =
      Except.ok ())
    (hperf : performConversion q u w = Except.ok raw) :
    convertedValueQ
      { temperature := { value := JSNumber.finiteNum q, unit := u, precision := tp }
        targetUnit := w
        precision := none } = some (toPrecision15 raw) := by
  unfold convertedValueQ
  rw [convert_ok _ q raw hval rfl hperf]
  rfl

lemma roundTo_fix (n : ℕ) (hn : 0 < n) (v : ℚ) :
    roundTo n (roundTo n v) = roundTo n v := by
  have hq : ((n : ℚ)) ≠ 0 := by
    have : (0 : ℚ) < n := by exact_mod_cast hn
    exact this.ne'
  unfold roundTo
  rw [div_mul_cancel₀ _ hq, round_intCast]

/-- Claim C6 (amended theorem): for every pair of recognised units the
unrounded conversion round-trips exactly (the Kelvin-routed formulas
are algebraic inverses), and the rounded round trip through the
fixed-decimal precision contexts recovers the value within `7/(5·n)`
for decimal scale `n` (i.e. `14/5` of a half rounding step; `7/500`
at CONSUMER); exact recovery at SCIENTIFIC precision does not hold in
general (see the counterexample). -/
theorem claim_C6 (u w : String) (hu : u ∈ TemperatureUnit.values)
    (hw : w ∈ TemperatureUnit.values) :
    (∀ v : ℚ, (performConversion v u w).bind (fun r => performConversion r w u) =
      Except.ok v) ∧
    (∀ (p : TemperaturePrecisionContext) (n : ℕ), decimalScale p = some n →
      ∀ (v r : ℚ), roundTripRounded p u w v = Except.ok r → |r - v| ≤ 7 / (5 * n)) := by
  constructor
  · intro v
    rcases (mem_values_iff u).1 hu with h | h | h <;>
      rcases (mem_values_iff w).1 hw with g | g | g <;> subst h <;> subst g <;>
      exact congrArg Except.ok (by ring)
  · intro p n hp v r hrt
    have hn : 0 < n := by
      cases p <;> cases hp <;> norm_num
    unfold roundTripRounded at hrt
    rcases (mem_values_iff u).1 hu with h | h | h <;>
      rcases (mem_values_iff w).1 hw with g | g | g <;> subst h <;> subst g
    · -- celsius → celsius
      rw [performConversion_self, except_bind_ok, performConversion_self,
        except_map_ok] at hrt
      cases hrt
      simp only [applyPrecision_eq_roundTo p n hp]
      rw [roundTo_fix n hn]
      calc |roundTo n v - v| ≤ 1 / (2 * n) := roundTo_err n hn v
      _ ≤ 7 / (5 * n) := by
          have hq : (0 : ℚ) < n := by exact_mod_cast hn
          rw [div_le_div_iff₀ (by positivity) (by positivity)]
          nlinarith
    · -- celsius → fahrenheit
      rw [performConversion_c_f, except_bind_ok, performConversion_f_c,
        except_map_ok] at hrt
      cases hrt
      simp only [applyPrecision_eq_roundTo p n hp]
      rw [show (v + 273.15) * (9 / 5) - 459.67 = (9 / 5) * v + 32 from by ring]
      rw [show ∀ R : ℚ, (R + 459.67) * (5 / 9) - 273.15 = (5 / 9) * R + (-160) / 9 from
        fun R => by ring]
      exact roundTo_rt_bound n hn (9 / 5) 32 (5 / 9) ((-160) / 9) v (by norm_num)
        (by norm_num) (by norm_num) (by norm_num)
    · -- celsius → kelvin
      rw [performConversion_c_k, except_bind_ok, performConversion_k_c,
        except_map_ok] at hrt
      cases hrt
      simp only [applyPrecision_eq_roundTo p n hp]
      rw [show v + 273.15 = 1 * v + 273.15 from by ring]
      rw [show ∀ R : ℚ, R - 273.15 = 1 * R + -273.15 from fun R => by ring]
      exact roundTo_rt_bound n hn 1 273.15 1 (-273.15) v (by norm_num) (by norm_num)
        (by norm_num) (by norm_num)
    · -- fahrenheit → celsius
      rw [performConversion_f_c, except_bind_ok, performConversion_c_f,
        except_map_ok] at hrt
      cases hrt
      simp only [applyPrecision_eq_roundTo p n hp]
      rw [show (v + 459.67) * (5 / 9) - 273.15 = (5 / 9) * v + (-160) / 9 from by ring]
      rw [show ∀ R : ℚ, (R + 273.15) * (9 / 5) - 459.67 = (9 / 5) * R + 32 from
        fun R => by ring]
      exact roundTo_rt_bound n hn (5 / 9) ((-160) / 9) (9 / 5) 32 v (by norm_num)
        (by norm_num) (by norm_num) (by norm_num)
    · -- fahrenheit → fahrenheit
      rw [performConversion_self, except_bind_ok, performConversion_self,
        except_map_ok] at hrt
      cases hrt
      simp only [applyPrecision_eq_roundTo p n hp]
      rw [roundTo_fix n hn]
      calc |roundTo n v - v| ≤ 1 / (2 * n) := roundTo_err n hn v
      _ ≤ 7 / (5 * n) := by
          have hq : (0 : ℚ) < n := by exact_mod_cast hn
          rw [div_le_div_iff₀ (by positivity) (by positivity)]
          nlinarith
    · -- fahrenheit → kelvin
      rw [performConversion_f_k, except_bind_ok, performConversion_k_f,
        except_map_ok] at hrt
      cases hrt
      simp only [applyPrecision_eq_roundTo p n hp]
      rw [show (v + 459.67) * (5 / 9) = (5 / 9) * v + 45967 / 180 from by ring]
      rw [show ∀ R : ℚ, R * (9 / 5) - 459.67 = (9 / 5) * R + -459.67 from fun R => by ring]
      exact roundTo_rt_bound n hn (5 / 9) (45967 / 180) (9 / 5) (-459.67) v (by norm_num)
        (by norm_num) (by norm_num) (by norm_num)
    · -- kelvin → celsius
      rw [performConversion_k_c, except_bind_ok, performConversion_c_k,
        except_map_ok] at hrt
      cases hrt
      simp only [applyPrecision_eq_roundTo p n hp]
      rw [show v - 273.15 = 1 * v + -273.15 from by ring]
      rw [show ∀ R : ℚ, R + 273.15 = 1 * R + 273.15 from fun R => by ring]
      exact roundTo_rt_bound n hn 1 (-273.15) 1 273.15 v (by norm_num) (by norm_num)
        (by norm_num) (by norm_num)
    · -- kelvin → fahrenheit
      rw [performConversion_k_f, except_bind_ok, performConversion_f_k,
        except_map_ok] at hrt
      cases hrt
      simp only [applyPrecision_eq_roundTo p n hp]
      rw [show v * (9 / 5) - 459.67 = (9 / 5) * v + -459.67 from by ring]
      rw [show ∀ R : ℚ, (R + 459.67) * (5 / 9) = (5 / 9) * R + 45967 / 180 from
        fun R => by ring]
      exact roundTo_rt_bound n hn (9 / 5) (-459.67) (5 / 9) (45967 / 180) v (by norm_num)
        (by norm_num) (by norm_num) (by norm_num)
    · -- kelvin → kelvin
      rw [performConversion_self, except_bind_ok, performConversion_self,
        except_map_ok] at hrt
      cases hrt
      simp only [applyPrecision_eq_roundTo p n hp]
      rw [roundTo_fix n hn]
      calc |roundTo n v - v| ≤ 1 / (2 * n) := roundTo_err n hn v
      _ ≤ 7 / (5 * n) := by
          have hq : (0 : ℚ) < n := by exact_mod_cast hn
          rw [div_le_div_iff₀ (by positivity) (by positivity)]
          nlinarith

end IoTTemp

namespace IoTTemp
open TemperatureConversionService

/-- Claim C6 (witness): exact unrounded round trip and the CONSUMER
bound at 0.25 °C ↔ °F. -/
theorem claim_C6_witness :
    "celsius" ∈ TemperatureUnit.values ∧ "fahrenheit" ∈ TemperatureUnit.values ∧
    (performConversion (1 / 4) "celsius" "fahrenheit").bind
      (fun r => performConversion r "fahrenheit" "celsius") = Except.ok (1 / 4) ∧
    decimalScale TemperaturePrecisionContext.CONSUMER = some 100 ∧
    roundTripRounded TemperaturePrecisionContext.CONSUMER "celsius" "fahrenheit" (1 / 4) =
      Except.ok (1 / 4) ∧
    |(1 / 4 : ℚ) - 1 / 4| ≤ 7 / (5 * 100) := by
  have hu : "celsius" ∈ TemperatureUnit.values := (mem_values_iff _).2 (Or.inl rfl)
  have hw : "fahrenheit" ∈ TemperatureUnit.values := (mem_values_iff _).2 (Or.inr (Or.inl rfl))
  have hrt : roundTripRounded TemperaturePrecisionContext.CONSUMER "celsius" "fahrenheit"
      (1 / 4) = Except.ok (1 / 4) := by
    have h1 : performConversion (1 / 4) "celsius" "fahrenheit" = Except.ok (649 / 20) := by
      rw [performConversion_c_f]
      norm_num
    have h2 : applyPrecision (649 / 20) TemperaturePrecisionContext.CONSUMER = 649 / 20 := by
      unfold applyPrecision
      rw [round_eval (649 / 20 * 100) 3245 (by norm_num) (by norm_num)]
      norm_num
    have h3 : performConversion (649 / 20) "fahrenheit" "celsius" = Except.ok (1 / 4) := by
      rw [performConversion_f_c]
      norm_num
    have h4 : applyPrecision (1 / 4) TemperaturePrecisionContext.CONSUMER = 1 / 4 := by
      unfold applyPrecision
      rw [round_eval (1 / 4 * 100) 25 (by norm_num) (by norm_num)]
      norm_num
    unfold roundTripRounded
    rw [h1, except_bind_ok, h2, h3, except_map_ok, h4]
  exact ⟨hu, hw, (claim_C6 "celsius" "fahrenheit" hu hw).1 (1 / 4), rfl, hrt,
    (claim_C6 "celsius" "fahrenheit" hu hw).2 TemperaturePrecisionContext.CONSUMER 100 rfl
      (1 / 4) (1 / 4) hrt⟩

/-- Claim C6 (counterexample): the full rounded round trip does not
recover the value exactly at SCIENTIFIC precision (1/7 °C comes back
as 0.142857142857167 °C), and at CONSUMER precision the error can
exceed the context's half rounding step of 1/200 (32.009 °F comes back
as 32.02 °F, an error of 0.011). -/
theorem claim_C6_counterexample :
    convertedValueQ
      { temperature := { value := JSNumber.finiteNum (1 / 7), unit := "celsius", precision := none }
        targetUnit := "fahrenheit"
        precision := none } = some (322571428571429 / 10000000000000) ∧
    convertedValueQ
      { temperature :=
          { value := JSNumber.finiteNum (322571428571429 / 10000000000000)
            unit := "fahrenheit"
            precision := none }
        targetUnit := "celsius"
        precision := none } = some (142857142857167 / 1000000000000000) ∧
    (142857142857167 / 1000000000000000 : ℚ) ≠ 1 / 7 ∧
    convertedValueQ
      { temperature := { value := JSNumber.finiteNum (32009 / 1000), unit := "fahrenheit", precision := none }
        targetUnit := "celsius"
        precision := some TemperaturePrecisionContext.CONSUMER } = some (1 / 100) ∧
    convertedValueQ
      { temperature := { value := JSNumber.finiteNum (1 / 100), unit := "celsius", precision := none }
        targetUnit := "fahrenheit"
        precision := some TemperaturePrecisionContext.CONSUMER } = some (1601 / 50) ∧
    ¬ (|(1601 / 50 : ℚ) - 32009 / 1000| ≤ 1 / 200) := by
  refine ⟨?_, ?_, by norm_num, ?_, ?_, ?_⟩
  · rw [convertedValueQ_sci_eval (1 / 7) (1129 / 35) "celsius" "fahrenheit" none
      ((validateTemperature_ok_iff (1 / 7) (-273.15) "celsius" "Celsius" none rfl).2
        (by norm_num))
      (by rw [performConversion_c_f]; norm_num)]
    rw [toPrecision15_eval (1129 / 35) 1 322571428571429 (by norm_num) (by norm_num)
      (by norm_num) (by norm_num)
      (by apply round_eval <;> norm_num)]
    norm_num
  · rw [convertedValueQ_sci_eval (322571428571429 / 10000000000000)
      (857142857143 / 6000000000000) "fahrenheit" "celsius" none
      ((validateTemperature_ok_iff (322571428571429 / 10000000000000) (-459.67) "fahrenheit"
        "Fahrenheit" none rfl).2 (by norm_num))
      (by rw [performConversion_f_c]; norm_num)]
    rw [toPrecision15_eval (857142857143 / 6000000000000) (-1) 142857142857167 (by norm_num)
      (by norm_num) (by norm_num) (by norm_num)
      (by apply round_eval <;> norm_num)]
    norm_num
  · rw [convertedValueQ_eval (32009 / 1000) (1 / 200) "fahrenheit" "celsius" none
      TemperaturePrecisionContext.CONSUMER
      ((validateTemperature_ok_iff (32009 / 1000) (-459.67) "fahrenheit" "Fahrenheit" none
        rfl).2 (by norm_num))
      (by rw [performConversion_f_c]; norm_num)]
    unfold applyPrecision
    rw [round_eval (1 / 200 * 100) 1 (by norm_num) (by norm_num)]
    norm_num
  · rw [convertedValueQ_eval (1 / 100) (16009 / 500) "celsius" "fahrenheit" none
      TemperaturePrecisionContext.CONSUMER
      ((validateTemperature_ok_iff (1 / 100) (-273.15) "celsius" "Celsius" none rfl).2
        (by norm_num))
      (by rw [performConversion_c_f]; norm_num)]
    unfold applyPrecision
    rw [round_eval (16009 / 500 * 100) 3202 (by norm_num) (by norm_num)]
    norm_num
  · rw [show (1601 / 50 : ℚ) - 32009 / 1000 = 11 / 1000 from by norm_num,
      abs_of_pos (by norm_num : (0 : ℚ) < 11 / 1000)]
    norm_num

end IoTTemp

namespace IoTTemp
open TemperatureConversionService

lemma mapM_convert_all_valid (w : String) (p : Option TemperaturePrecisionContext)
    (hw : w ∈ TemperatureUnit.values) :
    ∀ temps : List TemperatureValue, (∀ t ∈ temps, validateTemperature t = Except.ok ()) →
    ∃ cs, temps.mapM (fun temperature =>
        convert { temperature := temperature, targetUnit := w, precision := p }) =
      Except.ok cs ∧
    cs.map (fun c => c.original) = temps ∧
    ∀ c ∈ cs, c.converted.unit = w ∧
      c.precision = p.getD TemperaturePrecisionContext.SCIENTIFIC := by
  intro temps
  induction temps with
  | nil =>
    intro _
    exact ⟨[], rfl, rfl, by simp⟩
  | cons t ts ih =>
    intro hall
    obtain ⟨cs, hcs, hmap, hprops⟩ := ih (fun t' ht' => hall t' (List.mem_cons_of_mem _ ht'))
    obtain ⟨q, raw, hq, hraw, hconv⟩ :=
      convert_ok_of_valid t w p (hall t (List.mem_cons_self t ts)) hw
    refine ⟨_ :: cs, mapM_cons_ok _ t ts _ cs hconv hcs, ?_, ?_⟩
    · simp [hmap]
    · intro c hc
      rcases List.mem_cons.1 hc with rfl | hc
      · exact ⟨rfl, rfl⟩
      · exact hprops c hc

/-- Claim C7 (theorem): for a batch whose items all pass validation and
whose target unit is recognised, `batchConvert` succeeds with exactly
one output per input in order (`output[i].original = input[i]`),
`totalCount` equal to the input length, and every item converted to
the batch's single target unit and effective precision context; the
empty batch yields the empty result with count 0 and no error. -/
theorem claim_C7 (temps : List TemperatureValue) (w : String)
    (p : Option TemperaturePrecisionContext)
    (hall : ∀ t ∈ temps, validateTemperature t = Except.ok ())
    (hw : w ∈ TemperatureUnit.values) :
    (∃ resp, batchConvert { temperatures := temps, targetUnit := w, precision := p } =
        Except.ok resp ∧
      resp.totalCount = temps.length ∧
      resp.conversions.length = temps.length ∧
      resp.conversions.map (fun c => c.original) = temps ∧
      ∀ c ∈ resp.conversions, c.converted.unit = w ∧
        c.precision = p.getD TemperaturePrecisionContext.SCIENTIFIC) ∧
    batchConvert { temperatures := ([] : List TemperatureValue), targetUnit := w, precision := p } =
      Except.ok { conversions := [], totalCount := 0 } := by
  obtain ⟨cs, hcs, hmap, hprops⟩ := mapM_convert_all_valid w p hw temps hall
  have hlen : cs.length = temps.length := by
    rw [← hmap]
    simp
  exact ⟨⟨{ conversions := cs, totalCount := cs.length },
    batchConvert_conversions _ cs hcs, hlen, hlen, hmap, hprops⟩, rfl⟩

/-- Claim C7 (witness): a two-item batch of 0 °C and 10 K converted to
Kelvin. -/
theorem claim_C7_witness :
    (∀ t ∈ [({ value := JSNumber.finiteNum 0, unit := "celsius", precision := none } :
        TemperatureValue),
      { value := JSNumber.finiteNum 10, unit := "kelvin", precision := none }],
      validateTemperature t = Except.ok ()) ∧
    "kelvin" ∈ TemperatureUnit.values ∧
    ((∃ resp, batchConvert
        { temperatures := [{ value := JSNumber.finiteNum 0, unit := "celsius", precision := none },
            { value := JSNumber.finiteNum 10, unit := "kelvin", precision := none }]
          targetUnit := "kelvin"
          precision := none } = Except.ok resp ∧
      resp.totalCount = 2 ∧ resp.conversions.length = 2 ∧
      resp.conversions.map (fun c => c.original) =
        [{ value := JSNumber.finiteNum 0, unit := "celsius", precision := none },
          { value := JSNumber.finiteNum 10, unit := "kelvin", precision := none }] ∧
      ∀ c ∈ resp.conversions, c.converted.unit = "kelvin" ∧
        c.precision = (none : Option TemperaturePrecisionContext).getD
          TemperaturePrecisionContext.SCIENTIFIC) ∧
    batchConvert { temperatures := ([] : List TemperatureValue), targetUnit := "kelvin", precision := none } =
      Except.ok { conversions := [], totalCount := 0 }) := by
  have hall : ∀ t ∈ [({ value := JSNumber.finiteNum 0, unit := "celsius", precision := none } :
      TemperatureValue),
      { value := JSNumber.finiteNum 10, unit := "kelvin", precision := none }],
      validateTemperature t = Except.ok () := by
    intro t ht
    rcases List.mem_cons.1 ht with rfl | ht
    · exact (validateTemperature_ok_iff 0 (-273.15) "celsius" "Celsius" none rfl).2 (by norm_num)
    rcases List.mem_cons.1 ht with rfl | ht
    · exact (validateTemperature_ok_iff 10 0 "kelvin" "Kelvin" none rfl).2 (by norm_num)
    · exact absurd ht (List.not_mem_nil t)
  have hw : "kelvin" ∈ TemperatureUnit.values := (mem_values_iff _).2 (Or.inr (Or.inr rfl))
  exact ⟨hall, hw, claim_C7 _ "kelvin" none hall hw⟩

lemma mapM_convert_first_error (w : String) (p : Option TemperaturePrecisionContext)
    (hw : w ∈ TemperatureUnit.values) :
    ∀ temps : List TemperatureValue,
    (∃ t ∈ temps, validateTemperature t ≠ Except.ok ()) →
    ∃ e t, t ∈ temps ∧ validateTemperature t = Except.error e ∧
      temps.mapM (fun temperature =>
        convert { temperature := temperature, targetUnit := w, precision := p }) =
      Except.error e := by
  intro temps
  induction temps with
  | nil =>
    rintro ⟨t, ht, -⟩
    exact absurd ht (List.not_mem_nil t)
  | cons t0 ts ih =>
    intro hbad
    cases hv : validateTemperature t0 with
    | error e =>
      exact ⟨e, t0, List.mem_cons_self t0 ts, hv,
        mapM_cons_error _ t0 ts e (convert_error _ e hv)⟩
    | ok uu =>
      cases uu
      obtain ⟨q, raw, hq, hraw, hconv⟩ := convert_ok_of_valid t0 w p hv hw
      obtain ⟨t, ht, hne⟩ := hbad
      rcases List.mem_cons.1 ht with rfl | htail
      · exact absurd hv hne
      · obtain ⟨e, t', ht', hv', hmapM⟩ := ih ⟨t, htail, hne⟩
        exact ⟨e, t', List.mem_cons_of_mem t0 ht', hv',
          mapM_cons_tail_error _ t0 ts _ e hconv hmapM⟩

/-- Claim C8 (theorem): a batch (with a recognised target unit)
containing at least one item that fails validation fails as a whole:
`batchConvert` returns the validation error of a failing item and no
list of successes. -/
theorem claim_C8 (temps : List TemperatureValue) (w : String)
    (p : Option TemperaturePrecisionContext) (hw : w ∈ TemperatureUnit.values)
    (hbad : ∃ t ∈ temps, validateTemperature t ≠ Except.ok ()) :
    ∃ e t, t ∈ temps ∧ validateTemperature t = Except.error e ∧
      batchConvert { temperatures := temps, targetUnit := w, precision := p } =
        Except.error e := by
  obtain ⟨e, t, ht, hv, hm⟩ := mapM_convert_first_error w p hw temps hbad
  exact ⟨e, t, ht, hv, batchConvert_error _ e hm⟩

/-- Claim C8 (witness): a batch of a valid 0 °C followed by an invalid
−300 °C fails as a whole. -/
theorem claim_C8_witness :
    "kelvin" ∈ TemperatureUnit.values ∧
    (∃ t ∈ [({ value := JSNumber.finiteNum 0, unit := "celsius", precision := none } :
        TemperatureValue),
      { value := JSNumber.finiteNum (-300), unit := "celsius", precision := none }],
      validateTemperature t ≠ Except.ok ()) ∧
    (∃ e t, t ∈ [({ value := JSNumber.finiteNum 0, unit := "celsius", precision := none } :
        TemperatureValue),
      { value := JSNumber.finiteNum (-300), unit := "celsius", precision := none }] ∧
      validateTemperature t = Except.error e ∧
      batchConvert
        { temperatures := [{ value := JSNumber.finiteNum 0, unit := "celsius", precision := none },
            { value := JSNumber.finiteNum (-300), unit := "celsius", precision := none }]
          targetUnit := "kelvin"
          precision := none } = Except.error e) := by
  have hw : "kelvin" ∈ TemperatureUnit.values := (mem_values_iff _).2 (Or.inr (Or.inr rfl))
  have hbadval : validateTemperature
      { value := JSNumber.finiteNum (-300), unit := "celsius", precision := none } =
      Except.error (ConvFailure.convErr
        { message := "Temperature cannot be below absolute zero (Celsius)"
          code := "BELOW_ABSOLUTE_ZERO"
          field := some "temperature.value"
          value := some (ErrValue.num (JSNumber.finiteNum (-300))) }) :=
    validateTemperature_belowZero (-300) (-273.15) "celsius" "Celsius" none rfl (by norm_num)
  have hbad : ∃ t ∈ [({ value := JSNumber.finiteNum 0, unit := "celsius", precision := none } :
      TemperatureValue),
      { value := JSNumber.finiteNum (-300), unit := "celsius", precision := none }],
      validateTemperature t ≠ Except.ok () := by
    refine ⟨{ value := JSNumber.finiteNum (-300), unit := "celsius", precision := none },
      List.mem_cons_of_mem _ (List.mem_cons_self _ _), ?_⟩
    rw [hbadval]
    intro hx
    cases hx
  exact ⟨hw, hbad, claim_C8 _ "kelvin" none hw hbad⟩

end IoTTemp

namespace IoTTemp
open TemperatureConversionService

lemma mapM_convert_prefix_error (w : String) (p : Option TemperaturePrecisionContext)
    (hw : w ∈ TemperatureUnit.values) (t : TemperatureValue)
    (post : List TemperatureValue) (e : ConvFailure)
    (he : validateTemperature t = Except.error e) :
    ∀ pre : List TemperatureValue, (∀ t' ∈ pre, validateTemperature t' = Except.ok ()) →
    (pre ++ t :: post).mapM (fun temperature =>
      convert { temperature := temperature, targetUnit := w, precision := p }) =
      Except.error e := by
  intro pre
  induction pre with
  | nil =>
    intro _
    exact mapM_cons_error _ t post e (convert_error _ e he)
  | cons t0 ts ih =>
    intro hpre
    rw [List.cons_append]
    obtain ⟨q, raw, hq, hraw, hconv⟩ :=
      convert_ok_of_valid t0 w p (hpre t0 (List.mem_cons_self t0 ts)) hw
    exact mapM_cons_tail_error _ t0 _ _ e hconv
      (ih (fun t' ht' => hpre t' (List.mem_cons_of_mem t0 ht')))

/-- Claim C9 (amended theorem): when a batch fails because of an
invalid item, `batchConvert` propagates that item's own
`ConversionError` completely unchanged — the same error value whatever
the item's position in the batch; there is no `BatchItemFailure`
wrapper and no index attribution anywhere in the failure. -/
theorem claim_C9 (pre : List TemperatureValue) (t : TemperatureValue)
    (post : List TemperatureValue) (w : String)
    (p : Option TemperaturePrecisionContext) (e : ConvFailure)
    (hw : w ∈ TemperatureUnit.values)
    (hpre : ∀ t' ∈ pre, validateTemperature t' = Except.ok ())
    (he : validateTemperature t = Except.error e) :
    batchConvert { temperatures := pre ++ t :: post, targetUnit := w, precision := p } =
      Except.error e :=
  batchConvert_error _ e (mapM_convert_prefix_error w p hw t post e he pre hpre)

/-- Claim C9 (witness): the amended theorem with the invalid item at
index 1. -/
theorem claim_C9_witness :
    "kelvin" ∈ TemperatureUnit.values ∧
    (∀ t' ∈ [({ value := JSNumber.finiteNum 0, unit := "celsius", precision := none } :
        TemperatureValue)], validateTemperature t' = Except.ok ()) ∧
    validateTemperature { value := JSNumber.finiteNum (-300), unit := "celsius", precision := none } =
      Except.error (ConvFailure.convErr
        { message := "Temperature cannot be below absolute zero (Celsius)"
          code := "BELOW_ABSOLUTE_ZERO"
          field := some "temperature.value"
          value := some (ErrValue.num (JSNumber.finiteNum (-300))) }) ∧
    batchConvert
      { temperatures := [{ value := JSNumber.finiteNum 0, unit := "celsius", precision := none }] ++
          { value := JSNumber.finiteNum (-300), unit := "celsius", precision := none } ::
            ([] : List TemperatureValue)
        targetUnit := "kelvin"
        precision := none } =
      Except.error (ConvFailure.convErr
        { message := "Temperature cannot be below absolute zero (Celsius)"
          code := "BELOW_ABSOLUTE_ZERO"
          field := some "temperature.value"
          value := some (ErrValue.num (JSNumber.finiteNum (-300))) }) := by
  have hw : "kelvin" ∈ TemperatureUnit.values := (mem_values_iff _).2 (Or.inr (Or.inr rfl))
  have hpre : ∀ t' ∈ [({ value := JSNumber.finiteNum 0, unit := "celsius", precision := none } :
      TemperatureValue)], validateTemperature t' = Except.ok () := by
    intro t' ht'
    rcases List.mem_cons.1 ht' with rfl | ht'
    · exact (validateTemperature_ok_iff 0 (-273.15) "celsius" "Celsius" none rfl).2 (by norm_num)
    · exact absurd ht' (List.not_mem_nil t')
  have he : validateTemperature { value := JSNumber.finiteNum (-300), unit := "celsius", precision := none } =
      Except.error (ConvFailure.convErr
        { message := "Temperature cannot be below absolute zero (Celsius)"
          code := "BELOW_ABSOLUTE_ZERO"
          field := some "temperature.value"
          value := some (ErrValue.num (JSNumber.finiteNum (-300))) }) :=
    validateTemperature_belowZero (-300) (-273.15) "celsius" "Celsius" none rfl (by norm_num)
  exact ⟨hw, hpre, he, claim_C9 _ _ _ "kelvin" none _ hw hpre he⟩

/-- Claim C9 (counterexample): moving the invalid item from index 0 to
index 1 leaves the batch failure bit-for-bit identical — the raw
`ConversionError` of the item itself, carrying only message, code,
field and value; it is not wrapped in any `BatchItemFailure` and
carries no index, refuting the claim as stated. -/
theorem claim_C9_counterexample :
    batchConvert
      { temperatures := [{ value := JSNumber.finiteNum (-300), unit := "celsius", precision := none },
          { value := JSNumber.finiteNum 0, unit := "celsius", precision := none }]
        targetUnit := "kelvin"
        precision := none } =
      Except.error (ConvFailure.convErr
        { message := "Temperature cannot be below absolute zero (Celsius)"
          code := "BELOW_ABSOLUTE_ZERO"
          field := some "temperature.value"
          value := some (ErrValue.num (JSNumber.finiteNum (-300))) }) ∧
    batchConvert
      { temperatures := [{ value := JSNumber.finiteNum 0, unit := "celsius", precision := none },
          { value := JSNumber.finiteNum (-300), unit := "celsius", precision := none }]
        targetUnit := "kelvin"
        precision := none } =
      Except.error (ConvFailure.convErr
        { message := "Temperature cannot be below absolute zero (Celsius)"
          code := "BELOW_ABSOLUTE_ZERO"
          field := some "temperature.value"
          value := some (ErrValue.num (JSNumber.finiteNum (-300))) }) ∧
    convert
      { temperature := { value := JSNumber.finiteNum (-300), unit := "celsius", precision := none }
        targetUnit := "kelvin"
        precision := none } =
      Except.error (ConvFailure.convErr
        { message := "Temperature cannot be below absolute zero (Celsius)"
          code := "BELOW_ABSOLUTE_ZERO"
          field := some "temperature.value"
          value := some (ErrValue.num (JSNumber.finiteNum (-300))) }) := by
  have he : validateTemperature { value := JSNumber.finiteNum (-300), unit := "celsius", precision := none } =
      Except.error (ConvFailure.convErr
        { message := "Temperature cannot be below absolute zero (Celsius)"
          code := "BELOW_ABSOLUTE_ZERO"
          field := some "temperature.value"
          value := some (ErrValue.num (JSNumber.finiteNum (-300))) }) :=
    validateTemperature_belowZero (-300) (-273.15) "celsius" "Celsius" none rfl (by norm_num)
  have hbadconv : convert
      { temperature := { value := JSNumber.finiteNum (-300), unit := "celsius", precision := none }
        targetUnit := "kelvin"
        precision := none } =
      Except.error (ConvFailure.convErr
        { message := "Temperature cannot be below absolute zero (Celsius)"
          code := "BELOW_ABSOLUTE_ZERO"
          field := some "temperature.value"
          value := some (ErrValue.num (JSNumber.finiteNum (-300))) }) :=
    convert_error _ _ he
  obtain ⟨q, raw, hq, hraw, hgoodconv⟩ := convert_ok_of_valid
    { value := JSNumber.finiteNum 0, unit := "celsius", precision := none } "kelvin" none
    ((validateTemperature_ok_iff 0 (-273.15) "celsius" "Celsius" none rfl).2 (by norm_num))
    ((mem_values_iff _).2 (Or.inr (Or.inr rfl)))
  refine ⟨?_, ?_, hbadconv⟩
  · exact batchConvert_error _ _ (mapM_cons_error _ _ _ _ hbadconv)
  · exact batchConvert_error _ _ (mapM_cons_tail_error _ _ _ _ _ hgoodconv
      (mapM_cons_error _ _ _ _ hbadconv))

/-- Claim C10 (theorem): the input temperature's own optional
`precision` field has no effect on the computation — two requests
differing only in `temperature.precision` have identical outcomes for
the converted value, the converted unit and the effective precision
context (and fail with identical errors). -/
theorem claim_C10 (val : JSNumber) (u w : String)
    (tp1 tp2 reqp : Option TemperaturePrecisionContext) :
    Except.map (fun r => (r.converted, r.precision))
      (convert { temperature := { value := val, unit := u, precision := tp1 }
                 targetUnit := w
                 precision := reqp }) =
    Except.map (fun r => (r.converted, r.precision))
      (convert { temperature := { value := val, unit := u, precision := tp2 }
                 targetUnit := w
                 precision := reqp }) := by
  have hval : validateTemperature { value := val, unit := u, precision := tp1 } =
      validateTemperature { value := val, unit := u, precision := tp2 } := rfl
  cases hv : validateTemperature { value := val, unit := u, precision := tp2 } with
  | error e =>
    rw [convert_error _ e (hval.trans hv), convert_error _ e hv]
  | ok uu =>
    cases uu
    cases val with
    | finiteNum q =>
      cases hperf : performConversion q u w with
      | ok raw =>
        rw [convert_ok _ q raw (hval.trans hv) rfl hperf, convert_ok _ q raw hv rfl hperf]
        rfl
      | error e =>
        rw [convert_perfError _ q e (hval.trans hv) rfl hperf,
          convert_perfError _ q e hv rfl hperf]
    | nanNum =>
      have hf := isFinite_of_valid _ hv
      cases hf
    | posInfNum =>
      have hf := isFinite_of_valid _ hv
      cases hf
    | negInfNum =>
      have hf := isFinite_of_valid _ hv
      cases hf

end IoTTemp
